import Mathlib

/-!
Verification of the data-access layer of the ai-hedge-fund repository: the
provider handlers (`src/api_handlers/finnhub_handler.py`,
`src/api_handlers/base_handler.py`), the provider registry
(`src/api_handlers/api_factory.py`) and the failover dispatcher
(`src/tools/api.py`), shallowly embedded in Lean.

Modelling conventions:
* Dates are Python strings compared lexicographically by code point
  (`pyLe`/`pyLt` below mirror Python's `<=`/`<` on `str`).
* Numeric record fields are modelled as `Int`; no claim depends on
  floating-point arithmetic.
* Python's stable `list.sort(key=..., reverse=...)` is modelled by
  insertion sort over the corresponding key relation; all verified
  properties are insensitive to the order of equal keys.
* An operation that can raise is modelled with `Except Err`; the number of
  outbound HTTP requests an operation performs is threaded explicitly.
-/

abbrev Err := String

/-- Python `<=` on strings: lexicographic comparison by code point
(two characters are equal exactly when their code points are). -/
def pyLeL : List Char → List Char → Bool
  | [], _ => true
  | _ :: _, [] => false
  | a :: as, b :: bs =>
    if a.toNat < b.toNat then true
    else if b.toNat < a.toNat then false
    else pyLeL as bs

/-- Python `<` on strings: strict lexicographic comparison by code point. -/
def pyLtL : List Char → List Char → Bool
  | [], [] => false
  | [], _ :: _ => true
  | _ :: _, [] => false
  | a :: as, b :: bs =>
    if a.toNat < b.toNat then true
    else if b.toNat < a.toNat then false
    else pyLtL as bs

def pyLe (a b : String) : Bool := pyLeL a.data b.data

def pyLt (a b : String) : Bool := pyLtL a.data b.data

theorem pyLeL_total : ∀ as bs : List Char, pyLeL as bs = true ∨ pyLeL bs as = true := by
  intro as
  induction as with
  | nil => intro bs; left; rfl
  | cons a as ih =>
    intro bs
    cases bs with
    | nil => right; rfl
    | cons b bs =>
      simp only [pyLeL]
      rcases Nat.lt_trichotomy a.toNat b.toNat with h | h | h
      · left; simp [h]
      · have h1 : ¬ a.toNat < b.toNat := by omega
        have h2 : ¬ b.toNat < a.toNat := by omega
        simp only [if_neg h1, if_neg h2]
        exact ih bs
      · right; simp [h]

theorem pyLeL_trans : ∀ as bs cs : List Char,
    pyLeL as bs = true → pyLeL bs cs = true → pyLeL as cs = true := by
  intro as
  induction as with
  | nil => intro bs cs _ _; rfl
  | cons a as ih =>
    intro bs cs h1 h2
    match bs, cs with
    | [], _ => simp [pyLeL] at h1
    | _ :: _, [] => simp [pyLeL] at h2
    | b :: bs, c :: cs =>
      simp only [pyLeL] at h1 h2 ⊢
      split_ifs at h1 h2 ⊢ <;>
        first
          | rfl
          | omega
          | simp at h1
          | simp at h2
          | exact ih bs cs h1 h2

theorem pyLe_total (a b : String) : pyLe a b = true ∨ pyLe b a = true :=
  pyLeL_total a.data b.data

theorem pyLe_trans {a b c : String} (h1 : pyLe a b = true) (h2 : pyLe b c = true) :
    pyLe a c = true :=
  pyLeL_trans a.data b.data c.data h1 h2

/-! ## Domain records (`src/data/models.py` is not in the source tree; the
field sets below are the ones the handlers in `finnhub_handler.py` construct
and read, cf. the data-model table of the spec, §3). -/

structure Price where
  ticker : String
  time : String
  openPrice : Int   -- `open` in the source; renamed (Lean keyword)
  high : Int
  low : Int
  close : Int
  volume : Int
deriving DecidableEq, Repr

structure FinancialMetrics where
  ticker : String
  report_period : String
  period : String
  return_on_equity : Option Int := none
  return_on_assets : Option Int := none
  gross_margin : Option Int := none
  operating_margin : Option Int := none
  net_margin : Option Int := none
  debt_to_equity : Option Int := none
  current_ratio : Option Int := none
  quick_ratio : Option Int := none
  interest_coverage : Option Int := none
  dividend_yield : Option Int := none
  payout_ratio : Option Int := none
  price_to_earnings : Option Int := none
  price_to_book : Option Int := none
  price_to_sales : Option Int := none
  market_cap : Option Int := none
  enterprise_value : Option Int := none
  enterprise_value_to_revenue : Option Int := none
  enterprise_value_to_ebitda : Option Int := none
deriving DecidableEq, Repr

structure LineItem where
  ticker : String
  line_item : String
  value : Option Int
  report_period : String
  period : String
deriving DecidableEq, Repr

structure InsiderTrade where
  ticker : String
  filing_date : String
  transaction_date : Option String
  insider_name : String
  title : String
  transaction_type : String
  shares : Int
  price : Int
  value : Int
deriving DecidableEq, Repr

structure CompanyNews where
  ticker : String
  date : String
  headline : String
  summary : String
  source : String
  url : String
deriving DecidableEq, Repr

/-- The temporal key of a cached insider trade: `transaction_date` with
`filing_date` as fallback. Mirrors the Python expression
`trade.get("transaction_date") or trade["filing_date"]`, in which both a
missing/`None` value and an empty string are falsy. -/
def tradeKey (t : InsiderTrade) : String :=
  match t.transaction_date with
  | none => t.filing_date
  | some d => if d = "" then t.filing_date else d

/-! ## Sorting (model of Python's `list.sort(key=..., reverse=...)`) -/

def descBy (key : α → String) : α → α → Prop := fun a b => pyLe (key b) (key a) = true

def ascBy (key : α → String) : α → α → Prop := fun a b => pyLe (key a) (key b) = true

instance (key : α → String) : DecidableRel (descBy key) :=
  fun a b => inferInstanceAs (Decidable (_ = true))

instance (key : α → String) : DecidableRel (ascBy key) :=
  fun a b => inferInstanceAs (Decidable (_ = true))

instance (key : α → String) : IsTotal α (descBy key) := by
  constructor
  intro a b
  unfold descBy
  exact pyLe_total (key b) (key a)

instance (key : α → String) : IsTotal α (ascBy key) := by
  constructor
  intro a b
  unfold ascBy
  exact pyLe_total (key a) (key b)

instance (key : α → String) : IsTrans α (descBy key) := by
  constructor
  intro a b c h1 h2
  unfold descBy at h1 h2 ⊢
  exact pyLe_trans h2 h1

instance (key : α → String) : IsTrans α (ascBy key) := by
  constructor
  intro a b c h1 h2
  unfold ascBy at h1 h2 ⊢
  exact pyLe_trans h1 h2

/-- Model of `l.sort(key=key, reverse=True)`. -/
def pySortDescBy (key : α → String) (l : List α) : List α := l.insertionSort (descBy key)

/-- Model of `l.sort(key=key)` (ascending). -/
def pySortAscBy (key : α → String) (l : List α) : List α := l.insertionSort (ascBy key)

theorem pySortDescBy_sorted (key : α → String) (l : List α) :
    (pySortDescBy key l).Pairwise (descBy key) :=
  List.sorted_insertionSort (descBy key) l

theorem pySortAscBy_sorted (key : α → String) (l : List α) :
    (pySortAscBy key l).Pairwise (ascBy key) :=
  List.sorted_insertionSort (ascBy key) l

theorem mem_pySortDescBy (key : α → String) (l : List α) (a : α) :
    a ∈ pySortDescBy key l ↔ a ∈ l :=
  (List.perm_insertionSort (descBy key) l).mem_iff

/-! ## Cache Store -/

/-- Modelled from the spec: `src/data/cache.py` is not in the source tree
(only its callers in `finnhub_handler.py` are). Per §4.1 of the spec the
store keeps, per (entity kind, ticker), a collection of records;
`get(kind, ticker)` returns whatever is cached, empty if nothing is cached. -/
structure Cache where
  prices : String → List Price
  financial_metrics : String → List FinancialMetrics
  insider_trades : String → List InsiderTrade
  company_news : String → List CompanyNews

def Cache.empty : Cache :=
  { prices := fun _ => []
    financial_metrics := fun _ => []
    insider_trades := fun _ => []
    company_news := fun _ => [] }

/-- Modelled from the spec (§4.1): merge an incoming batch into an existing
collection; an incoming record replaces any existing record with the same
dedup key, otherwise it is appended. -/
def mergeDedup (key : α → String) (old incoming : List α) : List α :=
  old.filter (fun o => !(incoming.any (fun n => key n == key o))) ++ incoming

def Cache.get_prices (c : Cache) (ticker : String) : List Price := c.prices ticker

def Cache.get_financial_metrics (c : Cache) (ticker : String) : List FinancialMetrics :=
  c.financial_metrics ticker

def Cache.get_insider_trades (c : Cache) (ticker : String) : List InsiderTrade :=
  c.insider_trades ticker

def Cache.get_company_news (c : Cache) (ticker : String) : List CompanyNews :=
  c.company_news ticker

/-- Modelled from the spec (§4.1, §3): merge then re-establish the
kind-specific order — ascending by `time` for prices. -/
def Cache.set_prices (c : Cache) (ticker : String) (records : List Price) : Cache :=
  { c with prices := fun t =>
      if t = ticker then pySortAscBy (·.time) (mergeDedup (·.time) (c.prices ticker) records)
      else c.prices t }

/-- Modelled from the spec (§4.1, §3): merge (dedup key `report_period`)
then sort descending by `report_period`. -/
def Cache.set_financial_metrics (c : Cache) (ticker : String)
    (records : List FinancialMetrics) : Cache :=
  { c with financial_metrics := fun t =>
      if t = ticker then
        let merged := mergeDedup (·.report_period) (c.financial_metrics ticker) records
        pySortDescBy (·.report_period) merged
      else c.financial_metrics t }

/-- Modelled from the spec (§4.1, §3): merge (dedup key: temporal key plus
the insider name as discriminator) then sort descending by temporal key. -/
def Cache.set_insider_trades (c : Cache) (ticker : String)
    (records : List InsiderTrade) : Cache :=
  { c with insider_trades := fun t =>
      if t = ticker then
        let merged :=
          mergeDedup (fun r => tradeKey r ++ "|" ++ r.insider_name) (c.insider_trades ticker) records
        pySortDescBy tradeKey merged
      else c.insider_trades t }

/-- Modelled from the spec (§4.1, §3): merge (dedup key: date plus url as
discriminator) then sort descending by `date`. -/
def Cache.set_company_news (c : Cache) (ticker : String)
    (records : List CompanyNews) : Cache :=
  { c with company_news := fun t =>
      if t = ticker then
        let merged :=
          mergeDedup (fun r => r.date ++ "|" ++ r.url) (c.company_news ticker) records
        pySortDescBy (·.date) merged
      else c.company_news t }

/-! ## Date parsing and formatting (`base_handler.py`) -/

def digitChar : Nat → Char
  | 0 => '0'
  | 1 => '1'
  | 2 => '2'
  | 3 => '3'
  | 4 => '4'
  | 5 => '5'
  | 6 => '6'
  | 7 => '7'
  | 8 => '8'
  | 9 => '9'
  | _ => '*'

/-- ASCII digit test (the character class `%d`/`%m`/`%Y` accept). -/
def isDig (c : Char) : Bool := decide (48 ≤ c.toNat ∧ c.toNat ≤ 57)

/-- A four-digit field: CPython's `%Y` matches exactly four digits. -/
def d4 (a b c d : Char) : Option Nat :=
  if isDig a ∧ isDig b ∧ isDig c ∧ isDig d then
    some ((a.toNat - 48) * 1000 + (b.toNat - 48) * 100 + (c.toNat - 48) * 10 + (d.toNat - 48))
  else none

/-- A one-digit `%m`/`%d` field: the final `[1-9]` alternative of
CPython's field regexes (a lone `0` is rejected). -/
def dig1 (a : Char) : Option Nat :=
  if 49 ≤ a.toNat ∧ a.toNat ≤ 57 then some (a.toNat - 48) else none

/-- A two-digit `%m` field: the `1[0-2]|0[1-9]` alternatives of CPython's
month regex, i.e. two digits with value 01..12. -/
def month2 (a b : Char) : Option Nat :=
  if isDig a ∧ isDig b then
    if 1 ≤ (a.toNat - 48) * 10 + (b.toNat - 48) ∧ (a.toNat - 48) * 10 + (b.toNat - 48) ≤ 12 then
      some ((a.toNat - 48) * 10 + (b.toNat - 48))
    else none
  else none

/-- A two-digit `%d` field: the `3[01]|[12]\d|0[1-9]` alternatives of
CPython's day regex, i.e. two digits with value 01..31. -/
def day2 (a b : Char) : Option Nat :=
  if isDig a ∧ isDig b then
    if 1 ≤ (a.toNat - 48) * 10 + (b.toNat - 48) ∧ (a.toNat - 48) * 10 + (b.toNat - 48) ≤ 31 then
      some ((a.toNat - 48) * 10 + (b.toNat - 48))
    else none
  else none

def isLeapYear (y : Nat) : Bool :=
  decide ((y % 4 = 0 ∧ y % 100 ≠ 0) ∨ y % 400 = 0)

def daysInMonth (y m : Nat) : Nat :=
  if m = 2 then (if isLeapYear y then 29 else 28)
  else if m = 4 ∨ m = 6 ∨ m = 9 ∨ m = 11 then 30
  else 31

def validDate (y m d : Nat) : Bool :=
  decide (1 ≤ y ∧ y ≤ 9999 ∧ 1 ≤ m ∧ m ≤ 12 ∧ 1 ≤ d ∧ d ≤ daysInMonth y m)

/-- Model of `datetime.strptime(s, "%Y-%m-%d")`: CPython requires a full
match of four year digits and one- or two-digit month/day fields around
literal dashes (so inputs are 8-10 characters), then validates the
calendar date; yields (year, month, day). Since the separators are
non-digits, the regex's ordered alternation is equivalent to this
shape-directed parse. -/
def parseYMD : List Char → Option (Nat × Nat × Nat)
  | [y3, y2, y1, y0, s1, m1, s2, d1] =>
    if s1 = '-' ∧ s2 = '-' then
      match d4 y3 y2 y1 y0, dig1 m1, dig1 d1 with
      | some y, some m, some d => if validDate y m d then some (y, m, d) else none
      | _, _, _ => none
    else none
  | [y3, y2, y1, y0, s1, a, b, c, d] =>
    if s1 = '-' ∧ b = '-' then
      match d4 y3 y2 y1 y0, dig1 a, day2 c d with
      | some y, some m, some dd => if validDate y m dd then some (y, m, dd) else none
      | _, _, _ => none
    else if s1 = '-' ∧ c = '-' then
      match d4 y3 y2 y1 y0, month2 a b, dig1 d with
      | some y, some m, some dd => if validDate y m dd then some (y, m, dd) else none
      | _, _, _ => none
    else none
  | [y3, y2, y1, y0, s1, m1, m0, s2, d1, d0] =>
    if s1 = '-' ∧ s2 = '-' then
      match d4 y3 y2 y1 y0, month2 m1 m0, day2 d1 d0 with
      | some y, some m, some d => if validDate y m d then some (y, m, d) else none
      | _, _, _ => none
    else none
  | _ => none

/-- Model of `datetime.strptime(s, "%m/%d/%Y")`: one- or two-digit
month/day fields around literal slashes, four year digits, full match,
then calendar validation. -/
def parseMDY : List Char → Option (Nat × Nat × Nat)
  | [m1, s1, d1, s2, y3, y2, y1, y0] =>
    if s1 = '/' ∧ s2 = '/' then
      match d4 y3 y2 y1 y0, dig1 m1, dig1 d1 with
      | some y, some m, some d => if validDate y m d then some (y, m, d) else none
      | _, _, _ => none
    else none
  | [a, b, c, d, e, y3, y2, y1, y0] =>
    if b = '/' ∧ e = '/' then
      match d4 y3 y2 y1 y0, dig1 a, day2 c d with
      | some y, some m, some dd => if validDate y m dd then some (y, m, dd) else none
      | _, _, _ => none
    else if c = '/' ∧ e = '/' then
      match d4 y3 y2 y1 y0, month2 a b, dig1 d with
      | some y, some m, some dd => if validDate y m dd then some (y, m, dd) else none
      | _, _, _ => none
    else none
  | [m1, m0, s1, d1, d0, s2, y3, y2, y1, y0] =>
    if s1 = '/' ∧ s2 = '/' then
      match d4 y3 y2 y1 y0, month2 m1 m0, day2 d1 d0 with
      | some y, some m, some d => if validDate y m d then some (y, m, d) else none
      | _, _, _ => none
    else none
  | _ => none

/-- Model of `datetime.strptime(s, "%d-%m-%Y")`: one- or two-digit
day/month fields around literal dashes, four year digits, full match,
then calendar validation. -/
def parseDMY : List Char → Option (Nat × Nat × Nat)
  | [d1, s1, m1, s2, y3, y2, y1, y0] =>
    if s1 = '-' ∧ s2 = '-' then
      match d4 y3 y2 y1 y0, dig1 m1, dig1 d1 with
      | some y, some m, some d => if validDate y m d then some (y, m, d) else none
      | _, _, _ => none
    else none
  | [a, b, c, d, e, y3, y2, y1, y0] =>
    if b = '-' ∧ e = '-' then
      match d4 y3 y2 y1 y0, month2 c d, dig1 a with
      | some y, some m, some dd => if validDate y m dd then some (y, m, dd) else none
      | _, _, _ => none
    else if c = '-' ∧ e = '-' then
      match d4 y3 y2 y1 y0, dig1 d, day2 a b with
      | some y, some m, some dd => if validDate y m dd then some (y, m, dd) else none
      | _, _, _ => none
    else none
  | [d1, d0, s1, m1, m0, s2, y3, y2, y1, y0] =>
    if s1 = '-' ∧ s2 = '-' then
      match d4 y3 y2 y1 y0, month2 m1 m0, day2 d1 d0 with
      | some y, some m, some d => if validDate y m d then some (y, m, d) else none
      | _, _, _ => none
    else none
  | _ => none

def pad2 (n : Nat) : List Char := [digitChar (n / 10 % 10), digitChar (n % 10)]

def pad4 (n : Nat) : List Char :=
  [digitChar (n / 1000 % 10), digitChar (n / 100 % 10), digitChar (n / 10 % 10), digitChar (n % 10)]

/-- Model of `dt.strftime("%Y-%m-%d")`. -/
def printDate (ymd : Nat × Nat × Nat) : String :=
  String.mk (pad4 ymd.1 ++ '-' :: pad2 ymd.2.1 ++ '-' :: pad2 ymd.2.2)

/-- Model of `BaseApiHandler.format_date`. The `isinstance(date_str, datetime)`
branch of the source cannot arise for a string input and is omitted. -/
def BaseApiHandler.format_date (date_str : String) : String :=
  let cs := date_str.data
  if cs.length = 10 ∧ cs.getD 4 ' ' = '-' ∧ cs.getD 7 ' ' = '-' then date_str
  else
    match parseYMD cs with
    | some ymd => printDate ymd
    | none =>
      match parseMDY cs with
      | some ymd => printDate ymd
      | none =>
        match parseDMY cs with
        | some ymd => printDate ymd
        | none => date_str

def prevDay : Nat × Nat × Nat → Nat × Nat × Nat
  | (y, m, d) =>
    if 2 ≤ d then (y, m, d - 1)
    else if 2 ≤ m then (y, m - 1, daysInMonth y (m - 1))
    else (y - 1, 12, 31)

/-- Model of `dt - timedelta(days=n)`. -/
def subDays : Nat → Nat × Nat × Nat → Nat × Nat × Nat
  | 0, x => x
  | n + 1, x => subDays n (prevDay x)

/-! ## The Finnhub handler (`finnhub_handler.py`) -/

/-- An HTTP response as the handler observes it: status code plus the
parsed body the provider would deliver if the request is made. -/
structure HttpResp (σ : Type) where
  status : Nat
  body : σ

/-- Outcome of one handler operation: the returned value or the raised
exception, the cache afterwards, the number of outbound HTTP requests
performed, and the record batches passed to the cache `set_*` call. -/
structure FetchResult (α ρ : Type) where
  result : Except Err α
  cache : Cache
  requests : Nat
  writes : List (List ρ)

/-- The range filter applied to the cached price collection:
`[Price(**p) for p in cached_data if start_date <= p["time"] <= end_date]`. -/
def pricesCacheView (cached : List Price) (start_date end_date : String) : List Price :=
  cached.filter (fun p => pyLe start_date p.time && pyLe p.time end_date)

/-- The filtered-and-sorted cached read of `get_financial_metrics`
(before the `[:limit]` truncation). -/
def metricsCacheView (cached : List FinancialMetrics) (end_date : String) :
    List FinancialMetrics :=
  pySortDescBy (·.report_period) (cached.filter (fun m => pyLe m.report_period end_date))

/-- The filtered-and-sorted cached read of `get_insider_trades`. -/
def tradesCacheView (cached : List InsiderTrade) (start_date : Option String)
    (end_date : String) : List InsiderTrade :=
  let filtered := cached.filter (fun t =>
    (match start_date with
     | none => true
     | some s => pyLe s (tradeKey t)) && pyLe (tradeKey t) end_date)
  pySortDescBy tradeKey filtered

/-- The filtered-and-sorted cached read of `get_company_news`. -/
def newsCacheView (cached : List CompanyNews) (start_date : Option String)
    (end_date : String) : List CompanyNews :=
  let filtered := cached.filter (fun n =>
    (match start_date with
     | none => true
     | some s => pyLe s n.date) && pyLe n.date end_date)
  pySortDescBy (·.date) filtered

/-- Parsed body of the `/stock/candle` endpoint. -/
structure CandleData where
  s : Option String
  t : List Int
  o : List Int
  h : List Int
  l : List Int
  c : List Int
  v : List Int

/-- Conversion of a candle payload to `Price` records. Indexing a column
shorter than `t` raises (IndexError), modelled as `Except.error`. -/
def candleToPrices (from_ts : Int → String) (ticker : String) (d : CandleData) :
    Except Err (List Price) :=
  if d.t.length ≤ d.o.length ∧ d.t.length ≤ d.h.length ∧ d.t.length ≤ d.l.length ∧
      d.t.length ≤ d.c.length ∧ d.t.length ≤ d.v.length then
    Except.ok ((List.range d.t.length).map (fun i =>
      { ticker := ticker
        time := from_ts (d.t.getD i 0)
        openPrice := d.o.getD i 0
        high := d.h.getD i 0
        low := d.l.getD i 0
        close := d.c.getD i 0
        volume := d.v.getD i 0 }))
  else Except.error "IndexError"

/-- Fetch branch of `FinnhubApiHandler.get_prices`. `from_ts` models
`datetime.fromtimestamp(ts).strftime("%Y-%m-%d")` (timezone-dependent);
the two `_convert_to_unix_timestamp` calls parse the bounds first and
raise on malformed dates, before any request is made. -/
def FinnhubApiHandler.fetch_prices (from_ts : Int → String) (net : HttpResp CandleData)
    (cache : Cache) (ticker start_date end_date : String) : FetchResult (List Price) Price :=
  match parseYMD start_date.data, parseYMD end_date.data with
  | some _, some _ =>
    if net.status ≠ 200 then
      { result := Except.error "Error fetching data", cache := cache, requests := 1, writes := [] }
    else if net.body.s = some "no_data" then
      { result := Except.ok [], cache := cache, requests := 1, writes := [] }
    else
      match candleToPrices from_ts ticker net.body with
      | Except.error e =>
        { result := Except.error e, cache := cache, requests := 1, writes := [] }
      | Except.ok prices =>
        if prices.isEmpty then
          { result := Except.ok [], cache := cache, requests := 1, writes := [] }
        else
          { result := Except.ok prices
            cache := cache.set_prices ticker prices
            requests := 1
            writes := [prices] }
  | _, _ =>
    { result := Except.error "ValueError", cache := cache, requests := 0, writes := [] }

/-- Model of `FinnhubApiHandler.get_prices`: cache check, then fetch. -/
def FinnhubApiHandler.get_prices (from_ts : Int → String) (net : HttpResp CandleData)
    (cache : Cache) (ticker start_date end_date : String) : FetchResult (List Price) Price :=
  let cached := cache.get_prices ticker
  if cached.isEmpty then
    FinnhubApiHandler.fetch_prices from_ts net cache ticker start_date end_date
  else
    let filtered := pricesCacheView cached start_date end_date
    if filtered.isEmpty then
      FinnhubApiHandler.fetch_prices from_ts net cache ticker start_date end_date
    else
      { result := Except.ok filtered, cache := cache, requests := 0, writes := [] }

/-- Parsed body of `/stock/metric`: json-parse success plus the
`metrics_data.get("metric", {})` dictionary. -/
structure MetricPayload where
  parseOk : Bool
  metric : String → Option Int

structure RatioEntry where
  period : String

/-- Parsed body of `/stock/financial-ratios`: json-parse success plus
`ratios_data["series"]["annual"]` (`none` when "series"/"annual" is
absent or falsy). -/
structure RatiosPayload where
  parseOk : Bool
  series_annual : Option (List (String × List RatioEntry))

/-- Fetch branch of `FinnhubApiHandler.get_financial_metrics`; `today`
models `datetime.now().strftime("%Y-%m-%d")`. A ratios json-parse failure
is caught in the source and replaced by `{}`. -/
def FinnhubApiHandler.fetch_financial_metrics (today : String)
    (netMetric : HttpResp MetricPayload) (netRatios : HttpResp RatiosPayload)
    (cache : Cache) (ticker end_date period : String) (limit : Nat) :
    FetchResult (List FinancialMetrics) FinancialMetrics :=
  if netMetric.status ≠ 200 then
    { result := Except.error "Error fetching metrics", cache := cache, requests := 1, writes := [] }
  else if netMetric.body.parseOk = false then
    { result := Except.error "JSONDecodeError", cache := cache, requests := 1, writes := [] }
  else if netRatios.status ≠ 200 then
    { result := Except.error "Error fetching ratios", cache := cache, requests := 2, writes := [] }
  else
    let ratios := if netRatios.body.parseOk then netRatios.body.series_annual else none
    let report_date :=
      match ratios with
      | some (first :: _) =>
        match first.2.getLast? with
        | some entry => if entry.period = "" then today else entry.period
        | none => today
      | _ => today
    let am := netMetric.body.metric
    let metric : FinancialMetrics :=
      { ticker := ticker
        report_period := report_date
        period := period
        return_on_equity := am "roeTTM"
        return_on_assets := am "roaTTM"
        gross_margin := am "grossMarginTTM"
        operating_margin := am "operatingMarginTTM"
        net_margin := am "netMarginTTM"
        debt_to_equity := am "totalDebt/totalEquityQuarterly"
        current_ratio := am "currentRatioQuarterly"
        quick_ratio := am "quickRatioQuarterly"
        interest_coverage := am "interestCoverage"
        dividend_yield := am "dividendYieldIndicatedAnnual"
        payout_ratio := am "payoutRatioTTM"
        price_to_earnings := am "peBasicExclExtraTTM"
        price_to_book := am "pbQuarterly"
        price_to_sales := am "psTTM"
        market_cap := am "marketCapitalization"
        enterprise_value := am "enterpriseValue"
        enterprise_value_to_revenue := am "evToRevenue"
        enterprise_value_to_ebitda := am "evToEBITDA" }
    let financial_metrics := [metric]
    if financial_metrics.isEmpty then
      { result := Except.ok [], cache := cache, requests := 2, writes := [] }
    else
      { result := Except.ok financial_metrics
        cache := cache.set_financial_metrics ticker financial_metrics
        requests := 2
        writes := [financial_metrics] }

/-- Model of `FinnhubApiHandler.get_financial_metrics`: cache check, then fetch. -/
def FinnhubApiHandler.get_financial_metrics (today : String)
    (netMetric : HttpResp MetricPayload) (netRatios : HttpResp RatiosPayload)
    (cache : Cache) (ticker end_date period : String) (limit : Nat) :
    FetchResult (List FinancialMetrics) FinancialMetrics :=
  let cached := cache.get_financial_metrics ticker
  if cached.isEmpty then
    FinnhubApiHandler.fetch_financial_metrics today netMetric netRatios cache ticker end_date period limit
  else
    let filtered := metricsCacheView cached end_date
    if filtered.isEmpty then
      FinnhubApiHandler.fetch_financial_metrics today netMetric netRatios cache ticker end_date period limit
    else
      { result := Except.ok (filtered.take limit), cache := cache, requests := 0, writes := [] }

/-- Parsed body of `/stock/financials`: a statement is its (possibly
absent) `year` plus a field dictionary; `fields k = some v` means key `k`
is present with (possibly null) value `v`. -/
structure FinStatement where
  year : Option Nat
  fields : String → Option (Option Int)

structure FinancialsPayload where
  parseOk : Bool
  financials : List FinStatement

/-- The handler's static mapping from canonical line-item names to
Finnhub field names. -/
def line_item_mapping : List (String × String) :=
  [("capital_expenditure", "capitalExpenditures"),
   ("depreciation_and_amortization", "depreciationAndAmortization"),
   ("net_income", "netIncome"),
   ("outstanding_shares", "outstandingShares"),
   ("total_assets", "totalAssets"),
   ("total_liabilities", "totalLiabilities"),
   ("dividends_and_other_cash_distributions", "dividendsPaid"),
   ("issuance_or_purchase_of_equity_shares", "issuanceOfCapitalStock")]

/-- Model of `f"{statement.get('year')}"`: Python prints `None` for an absent key. -/
def yearStr : Option Nat → String
  | some y => Nat.repr y
  | none => "None"

def natDescBy (key : α → Nat) : α → α → Prop := fun a b => key b ≤ key a

instance (key : α → Nat) : DecidableRel (natDescBy key) :=
  fun _ _ => Nat.decLe _ _

/-- Model of `FinnhubApiHandler.search_line_items` (no cache interaction). -/
def FinnhubApiHandler.search_line_items (net : HttpResp FinancialsPayload) (cache : Cache)
    (ticker : String) (line_items : List String) (end_date period : String) (limit : Nat) :
    FetchResult (List LineItem) LineItem :=
  if net.status ≠ 200 then
    { result := Except.error "Error fetching financials", cache := cache, requests := 1, writes := [] }
  else
    let data := if net.body.parseOk then net.body.financials else []
    let yearPfx := (end_date.splitOn "-").headD ""
    let filtered := data.filter (fun st =>
      match st.year with
      | some y => decide (y ≠ 0) && pyLe (Nat.repr y) yearPfx
      | none => false)
    let sorted := filtered.insertionSort (natDescBy (fun st => st.year.getD 0))
    let limited := sorted.take limit
    let results := limited.flatMap (fun st =>
      line_items.filterMap (fun nm =>
        match line_item_mapping.lookup nm with
        | some fh =>
          match st.fields fh with
          | some v =>
            some { ticker := ticker, line_item := nm, value := v,
                   report_period := yearStr st.year ++ "-12-31", period := period }
          | none => none
        | none => none))
    { result := Except.ok results, cache := cache, requests := 1, writes := [] }

/-- Raw `/stock/insider-transactions` entry; string/number fields are read
with `.get(..., default)` in the source, so they are total here. -/
structure RawInsiderTrade where
  filingDate : String
  transactionDate : String
  name : String
  officerTitle : String
  transactionCode : String
  share : Int
  transactionPrice : Int
  value : Int

structure InsiderPayload where
  parseOk : Bool
  data : List RawInsiderTrade

/-- Fetch branch of `FinnhubApiHandler.get_insider_trades`. A json-parse
failure is caught in the source and replaced by `{}`. -/
def FinnhubApiHandler.fetch_insider_trades (net : HttpResp InsiderPayload) (cache : Cache)
    (ticker end_date : String) (start_date : Option String) (limit : Nat) :
    FetchResult (List InsiderTrade) InsiderTrade :=
  if net.status ≠ 200 then
    { result := Except.error "Error fetching insider trades", cache := cache, requests := 1, writes := [] }
  else
    let data := if net.body.parseOk then net.body.data else []
    let insider_trades := data.filterMap (fun tr =>
      if (match start_date with
          | some s => decide (s ≠ "") && pyLt tr.transactionDate s
          | none => false) then none
      else if pyLt end_date tr.transactionDate then none
      else
        some { ticker := ticker
               filing_date := tr.filingDate
               transaction_date := some tr.transactionDate
               insider_name := tr.name
               title := tr.officerTitle
               transaction_type := tr.transactionCode
               shares := tr.share
               price := tr.transactionPrice
               value := tr.value })
    let sorted := pySortDescBy tradeKey insider_trades
    let limited := sorted.take limit
    if limited.isEmpty then
      { result := Except.ok [], cache := cache, requests := 1, writes := [] }
    else
      { result := Except.ok limited
        cache := cache.set_insider_trades ticker limited
        requests := 1
        writes := [limited] }

/-- Model of `FinnhubApiHandler.get_insider_trades`: cache check, then fetch. -/
def FinnhubApiHandler.get_insider_trades (net : HttpResp InsiderPayload) (cache : Cache)
    (ticker end_date : String) (start_date : Option String) (limit : Nat) :
    FetchResult (List InsiderTrade) InsiderTrade :=
  let cached := cache.get_insider_trades ticker
  if cached.isEmpty then
    FinnhubApiHandler.fetch_insider_trades net cache ticker end_date start_date limit
  else
    let filtered := tradesCacheView cached start_date end_date
    if filtered.isEmpty then
      FinnhubApiHandler.fetch_insider_trades net cache ticker end_date start_date limit
    else
      { result := Except.ok filtered, cache := cache, requests := 0, writes := [] }

structure RawNews where
  datetime : Int
  headline : String
  summary : String
  source : String
  url : String

structure NewsPayload where
  parseOk : Bool
  items : List RawNews

/-- Request-and-normalize part of `FinnhubApiHandler.get_company_news`;
`start_url` is the start date interpolated into the request URL (it does
not influence the modelled response). -/
def FinnhubApiHandler.fetch_company_news_body (from_ts : Int → String)
    (net : HttpResp NewsPayload) (cache : Cache) (ticker start_url end_date : String)
    (limit : Nat) : FetchResult (List CompanyNews) CompanyNews :=
  if net.status ≠ 200 then
    { result := Except.error "Error fetching company news", cache := cache, requests := 1, writes := [] }
  else
    let news_data := if net.body.parseOk then net.body.items else []
    let company_news := news_data.map (fun n =>
      { ticker := ticker
        date := from_ts n.datetime
        headline := n.headline
        summary := n.summary
        source := n.source
        url := n.url })
    let sorted := pySortDescBy (·.date) company_news
    let limited := sorted.take limit
    if limited.isEmpty then
      { result := Except.ok [], cache := cache, requests := 1, writes := [] }
    else
      { result := Except.ok limited
        cache := cache.set_company_news ticker limited
        requests := 1
        writes := [limited] }

/-- Fetch branch of `FinnhubApiHandler.get_company_news`: when
`start_date` is falsy it is defaulted to `end_date - 30 days`, which
first parses `end_date` (raising on a malformed date). -/
def FinnhubApiHandler.fetch_company_news (from_ts : Int → String)
    (net : HttpResp NewsPayload) (cache : Cache) (ticker end_date : String)
    (start_date : Option String) (limit : Nat) : FetchResult (List CompanyNews) CompanyNews :=
  let needsDefault :=
    match start_date with
    | none => true
    | some s => decide (s = "")
  if needsDefault then
    match parseYMD end_date.data with
    | none =>
      { result := Except.error "ValueError", cache := cache, requests := 0, writes := [] }
    | some ymd =>
      FinnhubApiHandler.fetch_company_news_body from_ts net cache ticker
        (printDate (subDays 30 ymd)) end_date limit
  else
    FinnhubApiHandler.fetch_company_news_body from_ts net cache ticker
      (start_date.getD "") end_date limit

/-- Model of `FinnhubApiHandler.get_company_news`: cache check, then fetch. -/
def FinnhubApiHandler.get_company_news (from_ts : Int → String)
    (net : HttpResp NewsPayload) (cache : Cache) (ticker end_date : String)
    (start_date : Option String) (limit : Nat) : FetchResult (List CompanyNews) CompanyNews :=
  let cached := cache.get_company_news ticker
  if cached.isEmpty then
    FinnhubApiHandler.fetch_company_news from_ts net cache ticker end_date start_date limit
  else
    let filtered := newsCacheView cached start_date end_date
    if filtered.isEmpty then
      FinnhubApiHandler.fetch_company_news from_ts net cache ticker end_date start_date limit
    else
      { result := Except.ok filtered, cache := cache, requests := 0, writes := [] }

/-- Parsed body of `/stock/profile2`. -/
structure ProfilePayload where
  parseOk : Bool
  marketCapitalization : Option Int

/-- Model of `FinnhubApiHandler.get_market_cap`: no caching; on a non-200 status or
an unparsable payload it prints a diagnostic and returns `None` (it does
not raise); a present non-zero market cap is scaled from millions. -/
def FinnhubApiHandler.get_market_cap (net : HttpResp ProfilePayload) (cache : Cache)
    (ticker end_date : String) : FetchResult (Option Int) PUnit :=
  if net.status ≠ 200 then
    { result := Except.ok none, cache := cache, requests := 1, writes := [] }
  else if net.body.parseOk = false then
    { result := Except.ok none, cache := cache, requests := 1, writes := [] }
  else
    match net.body.marketCapitalization with
    | some mc =>
      if mc ≠ 0 then
        { result := Except.ok (some (mc * 1000000)), cache := cache, requests := 1, writes := [] }
      else
        { result := Except.ok none, cache := cache, requests := 1, writes := [] }
    | none =>
      { result := Except.ok none, cache := cache, requests := 1, writes := [] }

/-! ## Provider registry (`api_factory.py`) -/

inductive ApiProvider where
  | FINANCIAL_DATASETS
  | FINNHUB
deriving DecidableEq, Repr

/-- The configuration environment: per-provider credentials and the
`API_PROVIDER` selection variable (`none` models an unset variable). -/
structure Env where
  FINNHUB_API_KEY : Option String
  FINANCIAL_DATASETS_API_KEY : Option String
  API_PROVIDER : Option String

/-- Model of `FinnhubApiHandler.__init__`: raises unless `FINNHUB_API_KEY` is set
and non-empty (`if not self._api_key`). -/
def FinnhubApiHandler.ctor_ok (env : Env) : Bool :=
  match env.FINNHUB_API_KEY with
  | none => false
  | some k => decide (k ≠ "")

/-- Modelled from the spec: `financial_datasets_handler.py` is not in the
source tree. Per §4.2 a handler constructor fails fast exactly when its
required credential (API key) is absent from configuration. -/
def FinancialDatasetsApiHandler.ctor_ok (env : Env) : Bool :=
  match env.FINANCIAL_DATASETS_API_KEY with
  | none => false
  | some k => decide (k ≠ "")

/-- The mutable class-level state of `ApiFactory`: the handler singletons
(instances are identified by creation number), the resolved default
provider, and a fresh-instance counter. -/
structure FactoryState where
  handlers : ApiProvider → Option Nat
  default_provider : Option ApiProvider
  nextId : Nat

def FactoryState.initial : FactoryState :=
  { handlers := fun _ => none, default_provider := none, nextId := 0 }

/-- Model of `ApiFactory._determine_default_provider`: Finnhub if its key is set,
else Financial Datasets (also the keyless fallback). -/
def ApiFactory.determine_default_provider (env : Env) : ApiProvider :=
  match env.FINNHUB_API_KEY with
  | some k => if k ≠ "" then ApiProvider.FINNHUB else ApiProvider.FINANCIAL_DATASETS
  | none => ApiProvider.FINANCIAL_DATASETS

/-- The provider-resolution step at the head of `ApiFactory.get_handler`:
an omitted provider resolves (and lazily stores) the default. -/
def ApiFactory.resolve_provider (env : Env) (provider : Option ApiProvider)
    (s : FactoryState) : ApiProvider × FactoryState :=
  match provider with
  | some p => (p, s)
  | none =>
    match s.default_provider with
    | some p => (p, s)
    | none =>
      let p := ApiFactory.determine_default_provider env
      (p, { s with default_provider := some p })

/-- Model of `ApiFactory._create_handler`: constructs the provider's handler and
stores it; a constructor failure propagates and leaves the state as is.
(The `else raise ValueError("Unsupported API provider")` arm of the
source is unreachable: `ApiProvider` has exactly these two members.) -/
def ApiFactory.create_handler (env : Env) (p : ApiProvider) (s : FactoryState) :
    Except Err FactoryState :=
  match p with
  | ApiProvider.FINANCIAL_DATASETS =>
    if FinancialDatasetsApiHandler.ctor_ok env then
      Except.ok
        { s with
          handlers := fun q => if q = p then some s.nextId else s.handlers q
          nextId := s.nextId + 1 }
    else Except.error "ValueError: FINANCIAL_DATASETS_API_KEY is not set"
  | ApiProvider.FINNHUB =>
    if FinnhubApiHandler.ctor_ok env then
      Except.ok
        { s with
          handlers := fun q => if q = p then some s.nextId else s.handlers q
          nextId := s.nextId + 1 }
    else Except.error "ValueError: FINNHUB_API_KEY is not set"

/-- Model of `ApiFactory.get_handler`: resolve the provider, lazily create its
handler on first request, and return the stored instance. -/
def ApiFactory.get_handler (env : Env) (provider : Option ApiProvider)
    (s : FactoryState) : Except Err (Nat × FactoryState) :=
  let (p, s1) := ApiFactory.resolve_provider env provider s
  match s1.handlers p with
  | some h => Except.ok (h, s1)
  | none =>
    match ApiFactory.create_handler env p s1 with
    | Except.error e => Except.error e
    | Except.ok s2 =>
      match s2.handlers p with
      | some h => Except.ok (h, s2)
      | none => Except.error "unreachable"

/-- Model of `ApiFactory.set_default_provider`. -/
def ApiFactory.set_default_provider (p : ApiProvider) (s : FactoryState) : FactoryState :=
  { s with default_provider := some p }

/-! ## Failover dispatcher (`tools/api.py`) -/

/-- Module-level provider selection in `tools/api.py`: the lowercased
`API_PROVIDER` environment variable, mapped to a known provider or `None`. -/
def api.api_provider_of (s : String) : Option ApiProvider :=
  if s = "finnhub" then some ApiProvider.FINNHUB
  else if s = "financial_datasets" then some ApiProvider.FINANCIAL_DATASETS
  else none

/-- Outcome of one dispatcher call: the value handed back to the caller
(the dispatcher's return type carries no exception), how many fallback
attempts were made, and which provider the fallback used. -/
structure DispatchOutcome (α : Type) where
  result : α
  fallbackCalls : Nat
  fallbackProvider : Option ApiProvider

/-- The provider the dispatcher falls back to. -/
def otherProvider : ApiProvider → ApiProvider
  | ApiProvider.FINANCIAL_DATASETS => ApiProvider.FINNHUB
  | ApiProvider.FINNHUB => ApiProvider.FINANCIAL_DATASETS

/-- The try/except structure shared verbatim by the six functions of
`tools/api.py`: try the primary handler call; on an exception, if the
module-level `api_provider` names a known provider, resolve the other
provider's handler and retry once (`fallback q` bundles
`ApiFactory.get_handler` plus the retried call); otherwise, or if the
fallback also raises, return `empty`. -/
def api.dispatchOp (empty : α) (api_provider : Option ApiProvider)
    (primary : Except Err α) (fallback : ApiProvider → Except Err α) : DispatchOutcome α :=
  match primary with
  | Except.ok v => { result := v, fallbackCalls := 0, fallbackProvider := none }
  | Except.error _ =>
    match api_provider with
    | some p =>
      let q := otherProvider p
      match fallback q with
      | Except.ok v => { result := v, fallbackCalls := 1, fallbackProvider := some q }
      | Except.error _ => { result := empty, fallbackCalls := 1, fallbackProvider := some q }
    | none => { result := empty, fallbackCalls := 0, fallbackProvider := none }

/-- Model of `get_prices` of `tools/api.py`. -/
def api.get_prices (api_provider : Option ApiProvider) (primary : Except Err (List Price))
    (fallback : ApiProvider → Except Err (List Price)) : DispatchOutcome (List Price) :=
  api.dispatchOp [] api_provider primary fallback

/-- Model of `get_financial_metrics` of `tools/api.py`. -/
def api.get_financial_metrics (api_provider : Option ApiProvider)
    (primary : Except Err (List FinancialMetrics))
    (fallback : ApiProvider → Except Err (List FinancialMetrics)) :
    DispatchOutcome (List FinancialMetrics) :=
  api.dispatchOp [] api_provider primary fallback

/-- Model of `search_line_items` of `tools/api.py`. -/
def api.search_line_items (api_provider : Option ApiProvider)
    (primary : Except Err (List LineItem))
    (fallback : ApiProvider → Except Err (List LineItem)) : DispatchOutcome (List LineItem) :=
  api.dispatchOp [] api_provider primary fallback

/-- Model of `get_insider_trades` of `tools/api.py`. -/
def api.get_insider_trades (api_provider : Option ApiProvider)
    (primary : Except Err (List InsiderTrade))
    (fallback : ApiProvider → Except Err (List InsiderTrade)) :
    DispatchOutcome (List InsiderTrade) :=
  api.dispatchOp [] api_provider primary fallback

/-- Model of `get_company_news` of `tools/api.py`. -/
def api.get_company_news (api_provider : Option ApiProvider)
    (primary : Except Err (List CompanyNews))
    (fallback : ApiProvider → Except Err (List CompanyNews)) :
    DispatchOutcome (List CompanyNews) :=
  api.dispatchOp [] api_provider primary fallback

/-- Model of `get_market_cap` of `tools/api.py`; the empty value is `None`. -/
def api.get_market_cap (api_provider : Option ApiProvider)
    (primary : Except Err (Option Int))
    (fallback : ApiProvider → Except Err (Option Int)) : DispatchOutcome (Option Int) :=
  api.dispatchOp none api_provider primary fallback

/-! ## Dispatcher theorems -/

theorem dispatchOp_error_error {α : Type} (empty : α) (prov : Option ApiProvider)
    (e : Err) (fe : ApiProvider → Err) :
    (api.dispatchOp empty prov (Except.error e) (fun q => Except.error (fe q))).result = empty := by
  cases prov <;> rfl

/-- Claim C1: for every provider selection and all arguments, when the
primary handler call raises and the fallback handler call raises (for
whichever provider it would target), each of the six dispatcher functions
returns its defined empty value — `[]` for the five list operations,
`None` for `get_market_cap`. The dispatcher's return type carries the
plain value, so no exception propagates past the dispatcher boundary. -/
theorem C1_total_failure_yields_empty (prov : Option ApiProvider)
    (e1 e2 e3 e4 e5 e6 : Err) (g1 g2 g3 g4 g5 g6 : ApiProvider → Err) :
    (api.get_prices prov (Except.error e1) (fun q => Except.error (g1 q))).result = [] ∧
    (api.get_financial_metrics prov (Except.error e2) (fun q => Except.error (g2 q))).result = [] ∧
    (api.search_line_items prov (Except.error e3) (fun q => Except.error (g3 q))).result = [] ∧
    (api.get_insider_trades prov (Except.error e4) (fun q => Except.error (g4 q))).result = [] ∧
    (api.get_company_news prov (Except.error e5) (fun q => Except.error (g5 q))).result = [] ∧
    (api.get_market_cap prov (Except.error e6) (fun q => Except.error (g6 q))).result = none := by
  refine ⟨?_, ?_, ?_, ?_, ?_, ?_⟩ <;> apply dispatchOp_error_error

/-- The value the dispatcher hands back for a given fallback outcome. -/
def fallbackValue {α : Type} (empty : α) (r : Except Err α) : α :=
  match r with
  | Except.ok v => v
  | Except.error _ => empty

theorem dispatchOp_failover {α : Type} (empty : α) (p : ApiProvider) (e : Err)
    (fallback : ApiProvider → Except Err α) :
    (api.dispatchOp empty (some p) (Except.error e) fallback).fallbackCalls = 1 ∧
    (api.dispatchOp empty (some p) (Except.error e) fallback).fallbackProvider =
      some (otherProvider p) ∧
    (api.dispatchOp empty (some p) (Except.error e) fallback).result =
      fallbackValue empty (fallback (otherProvider p)) := by
  cases hfb : fallback (otherProvider p) <;> simp [api.dispatchOp, fallbackValue, hfb]

def C2price : Price :=
  { ticker := "AAPL", time := "2024-01-02", openPrice := 1, high := 2, low := 1,
    close := 2, volume := 100 }

/-- Claim C2 is false as stated: it demands a single fallback retry on
primary failure regardless of how the primary provider was selected, but
when the module-level `api_provider` is `None` (the `API_PROVIDER`
variable unset or unrecognized, so the primary handler came from default
resolution), a failing `get_prices` triggers no fallback attempt at all
and returns `[]` even though the fallback would have returned data. -/
theorem C2_counterexample :
    (api.get_prices none (Except.error "boom") (fun _ => Except.ok [C2price])).fallbackCalls
        = 0 ∧
    (api.get_prices none (Except.error "boom") (fun _ => Except.ok [C2price])).result = [] :=
  ⟨rfl, rfl⟩

/-- Claim C2 (amended): when the primary call raises and the module-level
`api_provider` names one of the two known providers, every dispatcher
function resolves the other provider and retries it exactly once,
returning the fallback's result (or the empty value if the fallback also
raises); but when `api_provider` is `None`, no fallback attempt is made
and the empty value is returned immediately. -/
theorem C2_failover_amended :
    (∀ (p : ApiProvider) (e : Err) (f : ApiProvider → Except Err (List Price)),
      (api.get_prices (some p) (Except.error e) f).fallbackCalls = 1 ∧
      (api.get_prices (some p) (Except.error e) f).fallbackProvider = some (otherProvider p) ∧
      (api.get_prices (some p) (Except.error e) f).result =
        fallbackValue [] (f (otherProvider p))) ∧
    (∀ (e : Err) (f : ApiProvider → Except Err (List Price)),
      (api.get_prices none (Except.error e) f).fallbackCalls = 0 ∧
      (api.get_prices none (Except.error e) f).result = []) ∧
    (∀ (p : ApiProvider) (e : Err) (f : ApiProvider → Except Err (List FinancialMetrics)),
      (api.get_financial_metrics (some p) (Except.error e) f).fallbackCalls = 1 ∧
      (api.get_financial_metrics (some p) (Except.error e) f).fallbackProvider =
        some (otherProvider p) ∧
      (api.get_financial_metrics (some p) (Except.error e) f).result =
        fallbackValue [] (f (otherProvider p))) ∧
    (∀ (e : Err) (f : ApiProvider → Except Err (List FinancialMetrics)),
      (api.get_financial_metrics none (Except.error e) f).fallbackCalls = 0 ∧
      (api.get_financial_metrics none (Except.error e) f).result = []) ∧
    (∀ (p : ApiProvider) (e : Err) (f : ApiProvider → Except Err (List LineItem)),
      (api.search_line_items (some p) (Except.error e) f).fallbackCalls = 1 ∧
      (api.search_line_items (some p) (Except.error e) f).fallbackProvider =
        some (otherProvider p) ∧
      (api.search_line_items (some p) (Except.error e) f).result =
        fallbackValue [] (f (otherProvider p))) ∧
    (∀ (e : Err) (f : ApiProvider → Except Err (List LineItem)),
      (api.search_line_items none (Except.error e) f).fallbackCalls = 0 ∧
      (api.search_line_items none (Except.error e) f).result = []) ∧
    (∀ (p : ApiProvider) (e : Err) (f : ApiProvider → Except Err (List InsiderTrade)),
      (api.get_insider_trades (some p) (Except.error e) f).fallbackCalls = 1 ∧
      (api.get_insider_trades (some p) (Except.error e) f).fallbackProvider =
        some (otherProvider p) ∧
      (api.get_insider_trades (some p) (Except.error e) f).result =
        fallbackValue [] (f (otherProvider p))) ∧
    (∀ (e : Err) (f : ApiProvider → Except Err (List InsiderTrade)),
      (api.get_insider_trades none (Except.error e) f).fallbackCalls = 0 ∧
      (api.get_insider_trades none (Except.error e) f).result = []) ∧
    (∀ (p : ApiProvider) (e : Err) (f : ApiProvider → Except Err (List CompanyNews)),
      (api.get_company_news (some p) (Except.error e) f).fallbackCalls = 1 ∧
      (api.get_company_news (some p) (Except.error e) f).fallbackProvider =
        some (otherProvider p) ∧
      (api.get_company_news (some p) (Except.error e) f).result =
        fallbackValue [] (f (otherProvider p))) ∧
    (∀ (e : Err) (f : ApiProvider → Except Err (List CompanyNews)),
      (api.get_company_news none (Except.error e) f).fallbackCalls = 0 ∧
      (api.get_company_news none (Except.error e) f).result = []) ∧
    (∀ (p : ApiProvider) (e : Err) (f : ApiProvider → Except Err (Option Int)),
      (api.get_market_cap (some p) (Except.error e) f).fallbackCalls = 1 ∧
      (api.get_market_cap (some p) (Except.error e) f).fallbackProvider =
        some (otherProvider p) ∧
      (api.get_market_cap (some p) (Except.error e) f).result =
        fallbackValue none (f (otherProvider p))) ∧
    (∀ (e : Err) (f : ApiProvider → Except Err (Option Int)),
      (api.get_market_cap none (Except.error e) f).fallbackCalls = 0 ∧
      (api.get_market_cap none (Except.error e) f).result = none) := by
  refine ⟨?_, ?_, ?_, ?_, ?_, ?_, ?_, ?_, ?_, ?_, ?_, ?_⟩
  · intro p e f; unfold api.get_prices; exact dispatchOp_failover [] p e f
  · intro e f; exact ⟨rfl, rfl⟩
  · intro p e f; unfold api.get_financial_metrics; exact dispatchOp_failover [] p e f
  · intro e f; exact ⟨rfl, rfl⟩
  · intro p e f; unfold api.search_line_items; exact dispatchOp_failover [] p e f
  · intro e f; exact ⟨rfl, rfl⟩
  · intro p e f; unfold api.get_insider_trades; exact dispatchOp_failover [] p e f
  · intro e f; exact ⟨rfl, rfl⟩
  · intro p e f; unfold api.get_company_news; exact dispatchOp_failover [] p e f
  · intro e f; exact ⟨rfl, rfl⟩
  · intro p e f; unfold api.get_market_cap; exact dispatchOp_failover none p e f
  · intro e f; exact ⟨rfl, rfl⟩

/-! ## Handler cached-read theorems -/

theorem get_prices_hit (ft : Int → String) (net : HttpResp CandleData) (c : Cache)
    (tk sd ed : String) (h : pricesCacheView (c.prices tk) sd ed ≠ []) :
    FinnhubApiHandler.get_prices ft net c tk sd ed =
      { result := Except.ok (pricesCacheView (c.prices tk) sd ed), cache := c,
        requests := 0, writes := [] } := by
  cases hl : c.prices tk with
  | nil =>
    rw [hl] at h
    exact absurd rfl h
  | cons p ps =>
    rw [hl] at h
    have hne : (pricesCacheView (p :: ps) sd ed).isEmpty = false := by
      cases hv : pricesCacheView (p :: ps) sd ed with
      | nil => exact absurd hv h
      | cons _ _ => rfl
    simp only [FinnhubApiHandler.get_prices, Cache.get_prices, hl, hne,
      List.isEmpty_cons, Bool.false_eq_true, if_false]

theorem get_financial_metrics_hit (today : String) (nm : HttpResp MetricPayload)
    (nr : HttpResp RatiosPayload) (c : Cache) (tk ed period : String) (limit : Nat)
    (h : metricsCacheView (c.financial_metrics tk) ed ≠ []) :
    FinnhubApiHandler.get_financial_metrics today nm nr c tk ed period limit =
      { result := Except.ok ((metricsCacheView (c.financial_metrics tk) ed).take limit),
        cache := c, requests := 0, writes := [] } := by
  cases hl : c.financial_metrics tk with
  | nil =>
    rw [hl] at h
    simp [metricsCacheView, pySortDescBy] at h
  | cons p ps =>
    rw [hl] at h
    have hne : (metricsCacheView (p :: ps) ed).isEmpty = false := by
      cases hv : metricsCacheView (p :: ps) ed with
      | nil => exact absurd hv h
      | cons _ _ => rfl
    simp only [FinnhubApiHandler.get_financial_metrics, Cache.get_financial_metrics, hl,
      hne, List.isEmpty_cons, Bool.false_eq_true, if_false]

theorem get_insider_trades_hit (net : HttpResp InsiderPayload) (c : Cache) (tk ed : String)
    (sd : Option String) (limit : Nat) (h : tradesCacheView (c.insider_trades tk) sd ed ≠ []) :
    FinnhubApiHandler.get_insider_trades net c tk ed sd limit =
      { result := Except.ok (tradesCacheView (c.insider_trades tk) sd ed), cache := c,
        requests := 0, writes := [] } := by
  cases hl : c.insider_trades tk with
  | nil =>
    rw [hl] at h
    simp [tradesCacheView, pySortDescBy] at h
  | cons p ps =>
    rw [hl] at h
    have hne : (tradesCacheView (p :: ps) sd ed).isEmpty = false := by
      cases hv : tradesCacheView (p :: ps) sd ed with
      | nil => exact absurd hv h
      | cons _ _ => rfl
    simp only [FinnhubApiHandler.get_insider_trades, Cache.get_insider_trades, hl, hne,
      List.isEmpty_cons, Bool.false_eq_true, if_false]

theorem get_company_news_hit (ft : Int → String) (net : HttpResp NewsPayload) (c : Cache)
    (tk ed : String) (sd : Option String) (limit : Nat)
    (h : newsCacheView (c.company_news tk) sd ed ≠ []) :
    FinnhubApiHandler.get_company_news ft net c tk ed sd limit =
      { result := Except.ok (newsCacheView (c.company_news tk) sd ed), cache := c,
        requests := 0, writes := [] } := by
  cases hl : c.company_news tk with
  | nil =>
    rw [hl] at h
    simp [newsCacheView, pySortDescBy] at h
  | cons p ps =>
    rw [hl] at h
    have hne : (newsCacheView (p :: ps) sd ed).isEmpty = false := by
      cases hv : newsCacheView (p :: ps) sd ed with
      | nil => exact absurd hv h
      | cons _ _ => rfl
    simp only [FinnhubApiHandler.get_company_news, Cache.get_company_news, hl, hne,
      List.isEmpty_cons, Bool.false_eq_true, if_false]

/-- Claim C3: whenever the cached collection filtered to the requested
bounds is non-empty, each caching handler operation returns exactly that
filtered view (truncated to `limit` for `get_financial_metrics`), performs
zero network requests, and leaves the cache untouched. -/
theorem C3_no_redundant_fetch :
    (∀ (from_ts : Int → String) (net : HttpResp CandleData) (c : Cache) (tk sd ed : String),
      pricesCacheView (c.prices tk) sd ed ≠ [] →
      FinnhubApiHandler.get_prices from_ts net c tk sd ed =
        { result := Except.ok (pricesCacheView (c.prices tk) sd ed), cache := c,
          requests := 0, writes := [] }) ∧
    (∀ (today : String) (nm : HttpResp MetricPayload) (nr : HttpResp RatiosPayload)
        (c : Cache) (tk ed period : String) (limit : Nat),
      metricsCacheView (c.financial_metrics tk) ed ≠ [] →
      FinnhubApiHandler.get_financial_metrics today nm nr c tk ed period limit =
        { result := Except.ok ((metricsCacheView (c.financial_metrics tk) ed).take limit),
          cache := c, requests := 0, writes := [] }) ∧
    (∀ (net : HttpResp InsiderPayload) (c : Cache) (tk ed : String)
        (sd : Option String) (limit : Nat),
      tradesCacheView (c.insider_trades tk) sd ed ≠ [] →
      FinnhubApiHandler.get_insider_trades net c tk ed sd limit =
        { result := Except.ok (tradesCacheView (c.insider_trades tk) sd ed), cache := c,
          requests := 0, writes := [] }) ∧
    (∀ (from_ts : Int → String) (net : HttpResp NewsPayload) (c : Cache) (tk ed : String)
        (sd : Option String) (limit : Nat),
      newsCacheView (c.company_news tk) sd ed ≠ [] →
      FinnhubApiHandler.get_company_news from_ts net c tk ed sd limit =
        { result := Except.ok (newsCacheView (c.company_news tk) sd ed), cache := c,
          requests := 0, writes := [] }) := by
  refine ⟨?_, ?_, ?_, ?_⟩
  · intro from_ts net c tk sd ed h
    exact get_prices_hit from_ts net c tk sd ed h
  · intro today nm nr c tk ed period limit h
    exact get_financial_metrics_hit today nm nr c tk ed period limit h
  · intro net c tk ed sd limit h
    exact get_insider_trades_hit net c tk ed sd limit h
  · intro from_ts net c tk ed sd limit h
    exact get_company_news_hit from_ts net c tk ed sd limit h

def W3price : Price :=
  { ticker := "AAPL", time := "2024-01-03", openPrice := 10, high := 12, low := 9,
    close := 11, volume := 1000 }

def W3metric : FinancialMetrics :=
  { ticker := "AAPL", report_period := "2023-12-31", period := "ttm" }

def W3trade : InsiderTrade :=
  { ticker := "AAPL", filing_date := "2024-01-04", transaction_date := some "2024-01-02",
    insider_name := "A Person", title := "CFO", transaction_type := "S", shares := 10,
    price := 5, value := 50 }

def W3news : CompanyNews :=
  { ticker := "AAPL", date := "2024-01-02", headline := "h", summary := "s",
    source := "src", url := "u" }

def W3cache : Cache :=
  { prices := fun t => if t = "AAPL" then [W3price] else []
    financial_metrics := fun t => if t = "AAPL" then [W3metric] else []
    insider_trades := fun t => if t = "AAPL" then [W3trade] else []
    company_news := fun t => if t = "AAPL" then [W3news] else [] }

def W3candle : HttpResp CandleData :=
  { status := 200, body := { s := some "no_data", t := [], o := [], h := [], l := [], c := [], v := [] } }

def W3ft : Int → String := fun _ => "1970-01-01"

theorem C3_no_redundant_fetch_witness :
    FinnhubApiHandler.get_prices W3ft W3candle W3cache "AAPL" "2024-01-01" "2024-01-05" =
      { result := Except.ok (pricesCacheView (W3cache.prices "AAPL") "2024-01-01" "2024-01-05"),
        cache := W3cache, requests := 0, writes := [] } ∧
    FinnhubApiHandler.get_financial_metrics "2024-06-01" ⟨200, ⟨true, fun _ => none⟩⟩
        ⟨200, ⟨true, none⟩⟩ W3cache "AAPL" "2024-01-05" "ttm" 10 =
      { result := Except.ok ((metricsCacheView (W3cache.financial_metrics "AAPL") "2024-01-05").take 10),
        cache := W3cache, requests := 0, writes := [] } ∧
    FinnhubApiHandler.get_insider_trades ⟨200, ⟨true, []⟩⟩ W3cache "AAPL" "2024-01-05"
        (some "2024-01-01") 1000 =
      { result := Except.ok (tradesCacheView (W3cache.insider_trades "AAPL")
          (some "2024-01-01") "2024-01-05"),
        cache := W3cache, requests := 0, writes := [] } ∧
    FinnhubApiHandler.get_company_news W3ft ⟨200, ⟨true, []⟩⟩ W3cache "AAPL" "2024-01-05"
        (some "2024-01-01") 1000 =
      { result := Except.ok (newsCacheView (W3cache.company_news "AAPL")
          (some "2024-01-01") "2024-01-05"),
        cache := W3cache, requests := 0, writes := [] } := by
  refine ⟨?_, ?_, ?_, ?_⟩
  · exact C3_no_redundant_fetch.1 W3ft W3candle W3cache "AAPL" "2024-01-01" "2024-01-05"
      (by decide)
  · exact C3_no_redundant_fetch.2.1 "2024-06-01" ⟨200, ⟨true, fun _ => none⟩⟩ ⟨200, ⟨true, none⟩⟩
      W3cache "AAPL" "2024-01-05" "ttm" 10 (by decide)
  · exact C3_no_redundant_fetch.2.2.1 ⟨200, ⟨true, []⟩⟩ W3cache "AAPL" "2024-01-05"
      (some "2024-01-01") 1000 (by decide)
  · exact C3_no_redundant_fetch.2.2.2 W3ft ⟨200, ⟨true, []⟩⟩ W3cache "AAPL" "2024-01-05"
      (some "2024-01-01") 1000 (by decide)

/-- Claim C5: a cached record is included in a handler's range-filtered
read exactly when `start_date <= key <= end_date` holds for its temporal
key — `time` for Price, `transaction_date` with `filing_date` fallback for
InsiderTrade, `date` for CompanyNews — and an omitted `start_date` imposes
no lower bound (the lower-bound condition is vacuous). -/
theorem C5_range_filter_membership :
    (∀ (l : List Price) (sd ed : String) (p : Price),
      p ∈ pricesCacheView l sd ed ↔
        p ∈ l ∧ pyLe sd p.time = true ∧ pyLe p.time ed = true) ∧
    (∀ (l : List InsiderTrade) (sd : Option String) (ed : String) (t : InsiderTrade),
      t ∈ tradesCacheView l sd ed ↔
        t ∈ l ∧ (∀ s, sd = some s → pyLe s (tradeKey t) = true) ∧
          pyLe (tradeKey t) ed = true) ∧
    (∀ (l : List CompanyNews) (sd : Option String) (ed : String) (n : CompanyNews),
      n ∈ newsCacheView l sd ed ↔
        n ∈ l ∧ (∀ s, sd = some s → pyLe s n.date = true) ∧ pyLe n.date ed = true) := by
  refine ⟨?_, ?_, ?_⟩
  · intro l sd ed p
    simp [pricesCacheView, List.mem_filter, and_assoc]
  · intro l sd ed t
    cases sd with
    | none =>
      simp [tradesCacheView, mem_pySortDescBy, List.mem_filter, and_assoc]
    | some s =>
      simp [tradesCacheView, mem_pySortDescBy, List.mem_filter, and_assoc]
  · intro l sd ed n
    cases sd with
    | none =>
      simp [newsCacheView, mem_pySortDescBy, List.mem_filter, and_assoc]
    | some s =>
      simp [newsCacheView, mem_pySortDescBy, List.mem_filter, and_assoc]

/-- Claim C6: each filtered cached read is sorted descending by its
temporal key — `get_financial_metrics` by `report_period` (including the
`[:limit]` truncation it returns), `get_insider_trades` by
transaction-date-with-filing-fallback, `get_company_news` by `date` —
while the `get_prices` read, whose code applies no sort, is ascending by
`time` whenever the cached collection is (the spec-modelled Cache Store
keeps it so). -/
theorem C6_cached_read_ordering :
    (∀ (l : List FinancialMetrics) (ed : String) (limit : Nat),
      ((metricsCacheView l ed).take limit).Pairwise
        (fun a b => pyLe b.report_period a.report_period = true)) ∧
    (∀ (l : List InsiderTrade) (sd : Option String) (ed : String),
      (tradesCacheView l sd ed).Pairwise
        (fun a b => pyLe (tradeKey b) (tradeKey a) = true)) ∧
    (∀ (l : List CompanyNews) (sd : Option String) (ed : String),
      (newsCacheView l sd ed).Pairwise (fun a b => pyLe b.date a.date = true)) ∧
    (∀ (l : List Price) (sd ed : String),
      l.Pairwise (fun a b => pyLe a.time b.time = true) →
      (pricesCacheView l sd ed).Pairwise (fun a b => pyLe a.time b.time = true)) := by
  refine ⟨?_, ?_, ?_, ?_⟩
  · intro l ed limit
    have hs := pySortDescBy_sorted (fun m : FinancialMetrics => m.report_period)
      (l.filter (fun m => pyLe m.report_period ed))
    simp only [descBy] at hs
    exact List.Pairwise.sublist (List.take_sublist _ _) hs
  · intro l sd ed
    unfold tradesCacheView
    exact (pySortDescBy_sorted tradeKey _).imp (fun h => h)
  · intro l sd ed
    unfold newsCacheView
    exact (pySortDescBy_sorted (fun n : CompanyNews => n.date) _).imp (fun h => h)
  · intro l sd ed h
    exact h.filter _

def W6price2 : Price :=
  { ticker := "AAPL", time := "2024-01-04", openPrice := 11, high := 13, low := 10,
    close := 12, volume := 900 }

theorem C6_cached_read_ordering_witness :
    [W3price, W6price2].Pairwise (fun a b => pyLe a.time b.time = true) ∧
    (pricesCacheView [W3price, W6price2] "2024-01-01" "2024-01-05").Pairwise
      (fun a b => pyLe a.time b.time = true) :=
  ⟨by decide,
   C6_cached_read_ordering.2.2.2 [W3price, W6price2] "2024-01-01" "2024-01-05" (by decide)⟩

/-! ## The incremental-fetch scenario (claim C4) -/

/-- Timestamp-to-date map used by the scenario (day `i` of January 2024). -/
def C4ft : Int → String := fun i =>
  if i = 2 then "2024-01-02"
  else if i = 3 then "2024-01-03"
  else if i = 4 then "2024-01-04"
  else if i = 6 then "2024-01-06"
  else if i = 7 then "2024-01-07"
  else "2024-01-08"

/-- First response: 3 daily bars inside 2024-01-01..2024-01-05. -/
def C4net1 : HttpResp CandleData :=
  { status := 200
    body := { s := some "ok", t := [2, 3, 4], o := [1, 1, 1], h := [1, 1, 1],
              l := [1, 1, 1], c := [1, 1, 1], v := [1, 1, 1] } }

/-- Second response: the delta bars are available on the network. -/
def C4net2 : HttpResp CandleData :=
  { status := 200
    body := { s := some "ok", t := [2, 3, 4, 6, 7], o := [1, 1, 1, 1, 1],
              h := [1, 1, 1, 1, 1], l := [1, 1, 1, 1, 1], c := [1, 1, 1, 1, 1],
              v := [1, 1, 1, 1, 1] } }

def C4bar (d : String) : Price :=
  { ticker := "AAPL", time := d, openPrice := 1, high := 1, low := 1, close := 1, volume := 1 }

/-- First call: empty cache, range 2024-01-01..2024-01-05. -/
def C4r1 : FetchResult (List Price) Price :=
  FinnhubApiHandler.get_prices C4ft C4net1 Cache.empty "AAPL" "2024-01-01" "2024-01-05"

/-- Second call on the same handler state: range 2024-01-01..2024-01-10. -/
def C4r2 : FetchResult (List Price) Price :=
  FinnhubApiHandler.get_prices C4ft C4net2 C4r1.cache "AAPL" "2024-01-01" "2024-01-10"

/-- Claim C4 is false as stated: after the first call caches 3 bars, the
second call for 2024-01-01..2024-01-10 performs zero network requests —
the non-empty filtered cache is treated as sufficient — and returns just
the 3 cached bars, not a merged result of at least 5. -/
theorem C4_counterexample :
    C4r2.requests = 0 ∧
    C4r2.result = Except.ok [C4bar "2024-01-02", C4bar "2024-01-03", C4bar "2024-01-04"] ∧
    ([C4bar "2024-01-02", C4bar "2024-01-03", C4bar "2024-01-04"] : List Price).length = 3 := by
  refine ⟨by decide, by rfl, rfl⟩

/-- Claim C4 (amended): in the concrete scenario the first call fetches
(one request) and caches the 3 bars, deduplicated and ascending; the
second, wider call reuses the cache but treats the non-empty filtered
result as a full hit: it returns exactly the 3 cached bars, makes no
network request for the delta, writes nothing, and leaves the cache
unchanged. -/
theorem C4_cache_reuse_amended :
    C4r1.requests = 1 ∧
    C4r1.cache.prices "AAPL" =
      [C4bar "2024-01-02", C4bar "2024-01-03", C4bar "2024-01-04"] ∧
    (C4r1.cache.prices "AAPL").Pairwise (fun a b => pyLt a.time b.time = true) ∧
    C4r2.result = Except.ok [C4bar "2024-01-02", C4bar "2024-01-03", C4bar "2024-01-04"] ∧
    C4r2.requests = 0 ∧
    C4r2.writes = [] ∧
    C4r2.cache = C4r1.cache := by
  refine ⟨by decide, by decide, by decide, by rfl, by decide, by decide, rfl⟩

/-! ## Cache-miss reduction lemmas -/

theorem get_prices_eq_fetch (ft : Int → String) (net : HttpResp CandleData) (c : Cache)
    (tk sd ed : String) (hv : pricesCacheView (c.prices tk) sd ed = []) :
    FinnhubApiHandler.get_prices ft net c tk sd ed =
      FinnhubApiHandler.fetch_prices ft net c tk sd ed := by
  unfold FinnhubApiHandler.get_prices
  cases hl : c.prices tk with
  | nil => simp [Cache.get_prices, hl]
  | cons p ps =>
    rw [hl] at hv
    simp [Cache.get_prices, hl, hv]

theorem get_financial_metrics_eq_fetch (today : String) (nm : HttpResp MetricPayload)
    (nr : HttpResp RatiosPayload) (c : Cache) (tk ed period : String) (limit : Nat)
    (hv : metricsCacheView (c.financial_metrics tk) ed = []) :
    FinnhubApiHandler.get_financial_metrics today nm nr c tk ed period limit =
      FinnhubApiHandler.fetch_financial_metrics today nm nr c tk ed period limit := by
  unfold FinnhubApiHandler.get_financial_metrics
  cases hl : c.financial_metrics tk with
  | nil => simp [Cache.get_financial_metrics, hl]
  | cons p ps =>
    rw [hl] at hv
    simp [Cache.get_financial_metrics, hl, hv]

theorem get_insider_trades_eq_fetch (net : HttpResp InsiderPayload) (c : Cache)
    (tk ed : String) (sd : Option String) (limit : Nat)
    (hv : tradesCacheView (c.insider_trades tk) sd ed = []) :
    FinnhubApiHandler.get_insider_trades net c tk ed sd limit =
      FinnhubApiHandler.fetch_insider_trades net c tk ed sd limit := by
  unfold FinnhubApiHandler.get_insider_trades
  cases hl : c.insider_trades tk with
  | nil => simp [Cache.get_insider_trades, hl]
  | cons p ps =>
    rw [hl] at hv
    simp [Cache.get_insider_trades, hl, hv]

theorem get_company_news_eq_fetch (ft : Int → String) (net : HttpResp NewsPayload)
    (c : Cache) (tk ed : String) (sd : Option String) (limit : Nat)
    (hv : newsCacheView (c.company_news tk) sd ed = []) :
    FinnhubApiHandler.get_company_news ft net c tk ed sd limit =
      FinnhubApiHandler.fetch_company_news ft net c tk ed sd limit := by
  unfold FinnhubApiHandler.get_company_news
  cases hl : c.company_news tk with
  | nil => simp [Cache.get_company_news, hl]
  | cons p ps =>
    rw [hl] at hv
    simp [Cache.get_company_news, hl, hv]

/-! ## Non-success response behaviour (claim C7) -/

def C7profile : HttpResp ProfilePayload :=
  { status := 500, body := { parseOk := true, marketCapitalization := some 123 } }

/-- Claim C7 is false as stated for `get_market_cap`: on a non-200
response (here 500) the handler does not raise a fetch-failure exception —
it returns `None` (`Except.ok none`, not `Except.error _`). -/
theorem C7_counterexample :
    (FinnhubApiHandler.get_market_cap C7profile Cache.empty "AAPL" "2024-01-01").result =
      Except.ok none :=
  rfl

/-- Claim C7 (amended): a non-success (non-200) provider response makes
`get_prices`, `get_financial_metrics`, `search_line_items`,
`get_insider_trades` and `get_company_news` raise a fetch failure to the
caller, with no retry, no failover and no cache mutation: each endpoint
is requested at most once, so the failing operation has performed exactly
one request — except `get_financial_metrics`, whose fetch path uses two
endpoints: it fails after one request when the metrics endpoint answers
non-200 and after two requests when the metrics endpoint succeeds (and
parses) but the ratios endpoint answers non-200. For `get_company_news`
this holds both with an explicit non-empty `start_date` and on the
default-start path (`start_date` None or empty, `end_date` well-formed).
`get_market_cap` instead returns `None` without raising (after its single
request). -/
theorem C7_non200_raises_amended :
    (∀ (ft : Int → String) (net : HttpResp CandleData) (c : Cache) (tk sd ed : String)
        (a b : Nat × Nat × Nat),
      parseYMD sd.data = some a → parseYMD ed.data = some b →
      pricesCacheView (c.prices tk) sd ed = [] → net.status ≠ 200 →
      (∃ e, (FinnhubApiHandler.get_prices ft net c tk sd ed).result = Except.error e) ∧
      (FinnhubApiHandler.get_prices ft net c tk sd ed).requests = 1 ∧
      (FinnhubApiHandler.get_prices ft net c tk sd ed).cache = c) ∧
    (∀ (today : String) (nm : HttpResp MetricPayload) (nr : HttpResp RatiosPayload)
        (c : Cache) (tk ed period : String) (limit : Nat),
      metricsCacheView (c.financial_metrics tk) ed = [] → nm.status ≠ 200 →
      (∃ e, (FinnhubApiHandler.get_financial_metrics today nm nr c tk ed period limit).result =
        Except.error e) ∧
      (FinnhubApiHandler.get_financial_metrics today nm nr c tk ed period limit).requests = 1 ∧
      (FinnhubApiHandler.get_financial_metrics today nm nr c tk ed period limit).cache = c) ∧
    (∀ (today : String) (nm : HttpResp MetricPayload) (nr : HttpResp RatiosPayload)
        (c : Cache) (tk ed period : String) (limit : Nat),
      metricsCacheView (c.financial_metrics tk) ed = [] →
      nm.status = 200 → nm.body.parseOk = true → nr.status ≠ 200 →
      (∃ e, (FinnhubApiHandler.get_financial_metrics today nm nr c tk ed period limit).result =
        Except.error e) ∧
      (FinnhubApiHandler.get_financial_metrics today nm nr c tk ed period limit).requests = 2 ∧
      (FinnhubApiHandler.get_financial_metrics today nm nr c tk ed period limit).cache = c) ∧
    (∀ (net : HttpResp FinancialsPayload) (c : Cache) (tk : String) (items : List String)
        (ed period : String) (limit : Nat),
      net.status ≠ 200 →
      (∃ e, (FinnhubApiHandler.search_line_items net c tk items ed period limit).result =
        Except.error e) ∧
      (FinnhubApiHandler.search_line_items net c tk items ed period limit).requests = 1 ∧
      (FinnhubApiHandler.search_line_items net c tk items ed period limit).cache = c) ∧
    (∀ (net : HttpResp InsiderPayload) (c : Cache) (tk ed : String) (sd : Option String)
        (limit : Nat),
      tradesCacheView (c.insider_trades tk) sd ed = [] → net.status ≠ 200 →
      (∃ e, (FinnhubApiHandler.get_insider_trades net c tk ed sd limit).result =
        Except.error e) ∧
      (FinnhubApiHandler.get_insider_trades net c tk ed sd limit).requests = 1 ∧
      (FinnhubApiHandler.get_insider_trades net c tk ed sd limit).cache = c) ∧
    (∀ (ft : Int → String) (net : HttpResp NewsPayload) (c : Cache) (tk ed : String)
        (s : String) (limit : Nat),
      newsCacheView (c.company_news tk) (some s) ed = [] → s ≠ "" → net.status ≠ 200 →
      (∃ e, (FinnhubApiHandler.get_company_news ft net c tk ed (some s) limit).result =
        Except.error e) ∧
      (FinnhubApiHandler.get_company_news ft net c tk ed (some s) limit).requests = 1 ∧
      (FinnhubApiHandler.get_company_news ft net c tk ed (some s) limit).cache = c) ∧
    (∀ (ft : Int → String) (net : HttpResp NewsPayload) (c : Cache) (tk ed : String)
        (sd : Option String) (limit : Nat) (ymd : Nat × Nat × Nat),
      sd = none ∨ sd = some "" →
      newsCacheView (c.company_news tk) sd ed = [] →
      parseYMD ed.data = some ymd → net.status ≠ 200 →
      (∃ e, (FinnhubApiHandler.get_company_news ft net c tk ed sd limit).result =
        Except.error e) ∧
      (FinnhubApiHandler.get_company_news ft net c tk ed sd limit).requests = 1 ∧
      (FinnhubApiHandler.get_company_news ft net c tk ed sd limit).cache = c) ∧
    (∀ (net : HttpResp ProfilePayload) (c : Cache) (tk ed : String),
      net.status ≠ 200 →
      (FinnhubApiHandler.get_market_cap net c tk ed).result = Except.ok none ∧
      (FinnhubApiHandler.get_market_cap net c tk ed).requests = 1 ∧
      (FinnhubApiHandler.get_market_cap net c tk ed).cache = c) := by
  refine ⟨?_, ?_, ?_, ?_, ?_, ?_, ?_, ?_⟩
  · intro ft net c tk sd ed a b ha hb hv hs
    rw [get_prices_eq_fetch ft net c tk sd ed hv]
    unfold FinnhubApiHandler.fetch_prices
    rw [ha, hb]
    simp [hs]
  · intro today nm nr c tk ed period limit hv hs
    rw [get_financial_metrics_eq_fetch today nm nr c tk ed period limit hv]
    unfold FinnhubApiHandler.fetch_financial_metrics
    simp [hs]
  · intro today nm nr c tk ed period limit hv h200 hparse hs
    rw [get_financial_metrics_eq_fetch today nm nr c tk ed period limit hv]
    unfold FinnhubApiHandler.fetch_financial_metrics
    have hc1 : ¬ (nm.status ≠ 200) := by simp [h200]
    have hc2 : ¬ (nm.body.parseOk = false) := by simp [hparse]
    rw [if_neg hc1, if_neg hc2, if_pos hs]
    exact ⟨⟨_, rfl⟩, rfl, rfl⟩
  · intro net c tk items ed period limit hs
    unfold FinnhubApiHandler.search_line_items
    simp [hs]
  · intro net c tk ed sd limit hv hs
    rw [get_insider_trades_eq_fetch net c tk ed sd limit hv]
    unfold FinnhubApiHandler.fetch_insider_trades
    simp [hs]
  · intro ft net c tk ed s limit hv hne hs
    rw [get_company_news_eq_fetch ft net c tk ed (some s) limit hv]
    simp [FinnhubApiHandler.fetch_company_news, FinnhubApiHandler.fetch_company_news_body,
      hne, hs]
  · intro ft net c tk ed sd limit ymd hdef hv hp hs
    rcases hdef with rfl | rfl <;>
      rw [get_company_news_eq_fetch ft net c tk ed _ limit hv] <;>
      simp [FinnhubApiHandler.fetch_company_news, FinnhubApiHandler.fetch_company_news_body,
        hp, hs]
  · intro net c tk ed hs
    unfold FinnhubApiHandler.get_market_cap
    simp [hs]

def C7prices : HttpResp CandleData :=
  { status := 500, body := { s := none, t := [], o := [], h := [], l := [], c := [], v := [] } }

theorem C7_non200_raises_amended_witness :
    (∃ e, (FinnhubApiHandler.get_prices C4ft C7prices Cache.empty "AAPL" "2024-01-01"
      "2024-01-05").result = Except.error e) ∧
    (FinnhubApiHandler.get_prices C4ft C7prices Cache.empty "AAPL" "2024-01-01"
      "2024-01-05").requests = 1 ∧
    (∃ e, (FinnhubApiHandler.get_financial_metrics "2024-06-01" ⟨200, ⟨true, fun _ => none⟩⟩
      ⟨500, ⟨true, none⟩⟩ Cache.empty "AAPL" "2024-01-05" "ttm" 10).result =
        Except.error e) ∧
    (FinnhubApiHandler.get_financial_metrics "2024-06-01" ⟨200, ⟨true, fun _ => none⟩⟩
      ⟨500, ⟨true, none⟩⟩ Cache.empty "AAPL" "2024-01-05" "ttm" 10).requests = 2 ∧
    (∃ e, (FinnhubApiHandler.get_company_news C4ft ⟨500, ⟨true, []⟩⟩ Cache.empty "AAPL"
      "2024-01-05" none 1000).result = Except.error e) ∧
    (FinnhubApiHandler.get_company_news C4ft ⟨500, ⟨true, []⟩⟩ Cache.empty "AAPL"
      "2024-01-05" none 1000).requests = 1 ∧
    (FinnhubApiHandler.get_market_cap C7profile Cache.empty "AAPL" "2024-01-01").result =
      Except.ok none := by
  have h1 := (C7_non200_raises_amended.1 C4ft C7prices Cache.empty "AAPL" "2024-01-01"
    "2024-01-05" (2024, 1, 1) (2024, 1, 5) (by decide) (by decide) (by decide) (by decide))
  have h3 := (C7_non200_raises_amended.2.2.1 "2024-06-01" ⟨200, ⟨true, fun _ => none⟩⟩
    ⟨500, ⟨true, none⟩⟩ Cache.empty "AAPL" "2024-01-05" "ttm" 10 (by decide) rfl rfl
    (by decide))
  have h7 := (C7_non200_raises_amended.2.2.2.2.2.2.1 C4ft ⟨500, ⟨true, []⟩⟩ Cache.empty
    "AAPL" "2024-01-05" none 1000 (2024, 1, 5) (Or.inl rfl) (by decide) (by decide)
    (by decide))
  have h8 := (C7_non200_raises_amended.2.2.2.2.2.2.2 C7profile Cache.empty "AAPL"
    "2024-01-01" (by decide))
  exact ⟨h1.1, h1.2.1, h3.1, h3.2.1, h7.1, h7.2.1, h8.1⟩

/-! ## Frame effect of the fetch paths (claim C10) -/

theorem ne_nil_of_not_isEmpty {l : List α} (h : ¬ l.isEmpty = true) : l ≠ [] := by
  intro he
  subst he
  exact h rfl

theorem fetch_prices_cases (ft : Int → String) (net : HttpResp CandleData) (c : Cache)
    (tk sd ed : String) :
    ((FinnhubApiHandler.fetch_prices ft net c tk sd ed).cache = c ∧
     (FinnhubApiHandler.fetch_prices ft net c tk sd ed).writes = []) ∨
    (∃ l, l ≠ [] ∧
      (FinnhubApiHandler.fetch_prices ft net c tk sd ed).result = Except.ok l ∧
      (FinnhubApiHandler.fetch_prices ft net c tk sd ed).writes = [l]) := by
  unfold FinnhubApiHandler.fetch_prices
  cases hpa : parseYMD sd.data with
  | none => exact Or.inl (by constructor <;> trivial)
  | some a =>
    cases hpb : parseYMD ed.data with
    | none => exact Or.inl (by constructor <;> trivial)
    | some b =>
      by_cases h1 : net.status ≠ 200
      · simp only [if_pos h1]
        exact Or.inl (by constructor <;> trivial)
      · simp only [if_neg h1]
        by_cases h2 : net.body.s = some "no_data"
        · simp only [if_pos h2]
          exact Or.inl (by constructor <;> trivial)
        · simp only [if_neg h2]
          cases hcp : candleToPrices ft tk net.body with
          | error e => exact Or.inl (by constructor <;> trivial)
          | ok prices =>
            by_cases h3 : prices.isEmpty = true
            · simp only [if_pos h3]
              exact Or.inl (by constructor <;> trivial)
            · simp only [if_neg h3]
              exact Or.inr ⟨prices, ne_nil_of_not_isEmpty h3, rfl, rfl⟩

theorem fetch_financial_metrics_cases (today : String) (nm : HttpResp MetricPayload)
    (nr : HttpResp RatiosPayload) (c : Cache) (tk ed period : String) (limit : Nat) :
    ((FinnhubApiHandler.fetch_financial_metrics today nm nr c tk ed period limit).cache = c ∧
     (FinnhubApiHandler.fetch_financial_metrics today nm nr c tk ed period limit).writes = []) ∨
    (∃ l, l ≠ [] ∧
      (FinnhubApiHandler.fetch_financial_metrics today nm nr c tk ed period limit).result =
        Except.ok l ∧
      (FinnhubApiHandler.fetch_financial_metrics today nm nr c tk ed period limit).writes =
        [l]) := by
  unfold FinnhubApiHandler.fetch_financial_metrics
  by_cases h1 : nm.status ≠ 200
  · simp only [if_pos h1]
    exact Or.inl (by constructor <;> trivial)
  · simp only [if_neg h1]
    by_cases h2 : nm.body.parseOk = false
    · simp only [if_pos h2]
      exact Or.inl (by constructor <;> trivial)
    · simp only [if_neg h2]
      by_cases h3 : nr.status ≠ 200
      · simp only [if_pos h3]
        exact Or.inl (by constructor <;> trivial)
      · simp only [if_neg h3]
        exact Or.inr ⟨_, List.cons_ne_nil _ _, rfl, rfl⟩

theorem fetch_insider_trades_cases (net : HttpResp InsiderPayload) (c : Cache)
    (tk ed : String) (sd : Option String) (limit : Nat) :
    ((FinnhubApiHandler.fetch_insider_trades net c tk ed sd limit).cache = c ∧
     (FinnhubApiHandler.fetch_insider_trades net c tk ed sd limit).writes = []) ∨
    (∃ l, l ≠ [] ∧
      (FinnhubApiHandler.fetch_insider_trades net c tk ed sd limit).result = Except.ok l ∧
      (FinnhubApiHandler.fetch_insider_trades net c tk ed sd limit).writes = [l]) := by
  unfold FinnhubApiHandler.fetch_insider_trades
  by_cases h1 : net.status ≠ 200
  · simp only [if_pos h1]
    exact Or.inl (by constructor <;> trivial)
  · simp only [if_neg h1]
    by_cases h3 :
      ((pySortDescBy tradeKey
        ((if net.body.parseOk = true then net.body.data else []).filterMap (fun tr =>
          if (match sd with
              | some s => decide (s ≠ "") && pyLt tr.transactionDate s
              | none => false) = true then none
          else if pyLt ed tr.transactionDate = true then none
          else
            some { ticker := tk
                   filing_date := tr.filingDate
                   transaction_date := some tr.transactionDate
                   insider_name := tr.name
                   title := tr.officerTitle
                   transaction_type := tr.transactionCode
                   shares := tr.share
                   price := tr.transactionPrice
                   value := tr.value }))).take limit).isEmpty = true
    · simp only [if_pos h3]
      exact Or.inl (by constructor <;> trivial)
    · simp only [if_neg h3]
      exact Or.inr ⟨_, ne_nil_of_not_isEmpty h3, rfl, rfl⟩

theorem fetch_company_news_body_cases (ft : Int → String) (net : HttpResp NewsPayload)
    (c : Cache) (tk su ed : String) (limit : Nat) :
    ((FinnhubApiHandler.fetch_company_news_body ft net c tk su ed limit).cache = c ∧
     (FinnhubApiHandler.fetch_company_news_body ft net c tk su ed limit).writes = []) ∨
    (∃ l, l ≠ [] ∧
      (FinnhubApiHandler.fetch_company_news_body ft net c tk su ed limit).result =
        Except.ok l ∧
      (FinnhubApiHandler.fetch_company_news_body ft net c tk su ed limit).writes = [l]) := by
  unfold FinnhubApiHandler.fetch_company_news_body
  by_cases h1 : net.status ≠ 200
  · simp only [if_pos h1]
    exact Or.inl (by constructor <;> trivial)
  · simp only [if_neg h1]
    by_cases h3 :
      ((pySortDescBy (fun n : CompanyNews => n.date)
        ((if net.body.parseOk = true then net.body.items else []).map (fun n =>
          { ticker := tk
            date := ft n.datetime
            headline := n.headline
            summary := n.summary
            source := n.source
            url := n.url }))).take limit).isEmpty = true
    · simp only [if_pos h3]
      exact Or.inl (by constructor <;> trivial)
    · simp only [if_neg h3]
      exact Or.inr ⟨_, ne_nil_of_not_isEmpty h3, rfl, rfl⟩

theorem fetch_company_news_cases (ft : Int → String) (net : HttpResp NewsPayload)
    (c : Cache) (tk ed : String) (sd : Option String) (limit : Nat) :
    ((FinnhubApiHandler.fetch_company_news ft net c tk ed sd limit).cache = c ∧
     (FinnhubApiHandler.fetch_company_news ft net c tk ed sd limit).writes = []) ∨
    (∃ l, l ≠ [] ∧
      (FinnhubApiHandler.fetch_company_news ft net c tk ed sd limit).result = Except.ok l ∧
      (FinnhubApiHandler.fetch_company_news ft net c tk ed sd limit).writes = [l]) := by
  unfold FinnhubApiHandler.fetch_company_news
  cases sd with
  | none =>
    cases hp : parseYMD ed.data with
    | none =>
      simp only [hp]
      exact Or.inl (by constructor <;> trivial)
    | some ymd =>
      simp only [hp]
      exact fetch_company_news_body_cases ft net c tk (printDate (subDays 30 ymd)) ed limit
  | some s =>
    by_cases hs : s = ""
    · subst hs
      cases hp : parseYMD ed.data with
      | none =>
        simp only [hp]
        exact Or.inl (by constructor <;> trivial)
      | some ymd =>
        simp only [hp]
        exact fetch_company_news_body_cases ft net c tk (printDate (subDays 30 ymd)) ed limit
    · simp only [decide_eq_false hs]
      simp only [Bool.false_eq_true, if_false]
      exact fetch_company_news_body_cases ft net c tk (Option.getD (some s) "") ed limit

/-- Claim C10: the Finnhub handler never writes an empty batch to the
cache: in `get_prices`, `get_financial_metrics`, `get_insider_trades` and
`get_company_news` every batch passed to the cache `set` call is
non-empty, and whenever the operation raises or returns zero records the
cache is left unchanged. -/
theorem C10_no_empty_cache_writes :
    (∀ (ft : Int → String) (net : HttpResp CandleData) (c : Cache) (tk sd ed : String),
      (∀ b, b ∈ (FinnhubApiHandler.get_prices ft net c tk sd ed).writes → b ≠ []) ∧
      (∀ e, (FinnhubApiHandler.get_prices ft net c tk sd ed).result = Except.error e →
        (FinnhubApiHandler.get_prices ft net c tk sd ed).cache = c) ∧
      ((FinnhubApiHandler.get_prices ft net c tk sd ed).result = Except.ok ([] : List Price) →
        (FinnhubApiHandler.get_prices ft net c tk sd ed).cache = c)) ∧
    (∀ (today : String) (nm : HttpResp MetricPayload) (nr : HttpResp RatiosPayload)
        (c : Cache) (tk ed period : String) (limit : Nat),
      (∀ b, b ∈ (FinnhubApiHandler.get_financial_metrics today nm nr c tk ed period limit).writes →
        b ≠ []) ∧
      (∀ e, (FinnhubApiHandler.get_financial_metrics today nm nr c tk ed period limit).result =
          Except.error e →
        (FinnhubApiHandler.get_financial_metrics today nm nr c tk ed period limit).cache = c) ∧
      ((FinnhubApiHandler.get_financial_metrics today nm nr c tk ed period limit).result =
          Except.ok ([] : List FinancialMetrics) →
        (FinnhubApiHandler.get_financial_metrics today nm nr c tk ed period limit).cache = c)) ∧
    (∀ (net : HttpResp InsiderPayload) (c : Cache) (tk ed : String) (sd : Option String)
        (limit : Nat),
      (∀ b, b ∈ (FinnhubApiHandler.get_insider_trades net c tk ed sd limit).writes → b ≠ []) ∧
      (∀ e, (FinnhubApiHandler.get_insider_trades net c tk ed sd limit).result =
          Except.error e →
        (FinnhubApiHandler.get_insider_trades net c tk ed sd limit).cache = c) ∧
      ((FinnhubApiHandler.get_insider_trades net c tk ed sd limit).result =
          Except.ok ([] : List InsiderTrade) →
        (FinnhubApiHandler.get_insider_trades net c tk ed sd limit).cache = c)) ∧
    (∀ (ft : Int → String) (net : HttpResp NewsPayload) (c : Cache) (tk ed : String)
        (sd : Option String) (limit : Nat),
      (∀ b, b ∈ (FinnhubApiHandler.get_company_news ft net c tk ed sd limit).writes → b ≠ []) ∧
      (∀ e, (FinnhubApiHandler.get_company_news ft net c tk ed sd limit).result =
          Except.error e →
        (FinnhubApiHandler.get_company_news ft net c tk ed sd limit).cache = c) ∧
      ((FinnhubApiHandler.get_company_news ft net c tk ed sd limit).result =
          Except.ok ([] : List CompanyNews) →
        (FinnhubApiHandler.get_company_news ft net c tk ed sd limit).cache = c)) := by
  refine ⟨?_, ?_, ?_, ?_⟩
  · intro ft net c tk sd ed
    by_cases hv : pricesCacheView (c.prices tk) sd ed = []
    · rw [get_prices_eq_fetch ft net c tk sd ed hv]
      rcases fetch_prices_cases ft net c tk sd ed with ⟨hc, hw⟩ | ⟨l, hl, hr, hw⟩
      · refine ⟨?_, fun _ _ => hc, fun _ => hc⟩
        intro b hb
        rw [hw] at hb
        exact absurd hb (List.not_mem_nil b)
      · refine ⟨?_, ?_, ?_⟩
        · intro b hb
          rw [hw, List.mem_singleton] at hb
          subst hb
          exact hl
        · intro e he
          rw [hr] at he
          exact Except.noConfusion he
        · intro h0
          rw [hr] at h0
          injection h0 with h0
          exact absurd h0 hl
    · rw [get_prices_hit ft net c tk sd ed hv]
      refine ⟨?_, ?_, ?_⟩
      · intro b hb
        exact absurd hb (List.not_mem_nil b)
      · intro e he
        exact Except.noConfusion he
      · intro _
        rfl
  · intro today nm nr c tk ed period limit
    by_cases hv : metricsCacheView (c.financial_metrics tk) ed = []
    · rw [get_financial_metrics_eq_fetch today nm nr c tk ed period limit hv]
      rcases fetch_financial_metrics_cases today nm nr c tk ed period limit with
        ⟨hc, hw⟩ | ⟨l, hl, hr, hw⟩
      · refine ⟨?_, fun _ _ => hc, fun _ => hc⟩
        intro b hb
        rw [hw] at hb
        exact absurd hb (List.not_mem_nil b)
      · refine ⟨?_, ?_, ?_⟩
        · intro b hb
          rw [hw, List.mem_singleton] at hb
          subst hb
          exact hl
        · intro e he
          rw [hr] at he
          exact Except.noConfusion he
        · intro h0
          rw [hr] at h0
          injection h0 with h0
          exact absurd h0 hl
    · rw [get_financial_metrics_hit today nm nr c tk ed period limit hv]
      refine ⟨?_, ?_, ?_⟩
      · intro b hb
        exact absurd hb (List.not_mem_nil b)
      · intro e he
        exact Except.noConfusion he
      · intro _
        rfl
  · intro net c tk ed sd limit
    by_cases hv : tradesCacheView (c.insider_trades tk) sd ed = []
    · rw [get_insider_trades_eq_fetch net c tk ed sd limit hv]
      rcases fetch_insider_trades_cases net c tk ed sd limit with
        ⟨hc, hw⟩ | ⟨l, hl, hr, hw⟩
      · refine ⟨?_, fun _ _ => hc, fun _ => hc⟩
        intro b hb
        rw [hw] at hb
        exact absurd hb (List.not_mem_nil b)
      · refine ⟨?_, ?_, ?_⟩
        · intro b hb
          rw [hw, List.mem_singleton] at hb
          subst hb
          exact hl
        · intro e he
          rw [hr] at he
          exact Except.noConfusion he
        · intro h0
          rw [hr] at h0
          injection h0 with h0
          exact absurd h0 hl
    · rw [get_insider_trades_hit net c tk ed sd limit hv]
      refine ⟨?_, ?_, ?_⟩
      · intro b hb
        exact absurd hb (List.not_mem_nil b)
      · intro e he
        exact Except.noConfusion he
      · intro _
        rfl
  · intro ft net c tk ed sd limit
    by_cases hv : newsCacheView (c.company_news tk) sd ed = []
    · rw [get_company_news_eq_fetch ft net c tk ed sd limit hv]
      rcases fetch_company_news_cases ft net c tk ed sd limit with
        ⟨hc, hw⟩ | ⟨l, hl, hr, hw⟩
      · refine ⟨?_, fun _ _ => hc, fun _ => hc⟩
        intro b hb
        rw [hw] at hb
        exact absurd hb (List.not_mem_nil b)
      · refine ⟨?_, ?_, ?_⟩
        · intro b hb
          rw [hw, List.mem_singleton] at hb
          subst hb
          exact hl
        · intro e he
          rw [hr] at he
          exact Except.noConfusion he
        · intro h0
          rw [hr] at h0
          injection h0 with h0
          exact absurd h0 hl
    · rw [get_company_news_hit ft net c tk ed sd limit hv]
      refine ⟨?_, ?_, ?_⟩
      · intro b hb
        exact absurd hb (List.not_mem_nil b)
      · intro e he
        exact Except.noConfusion he
      · intro _
        rfl

theorem C10_no_empty_cache_writes_witness :
    (FinnhubApiHandler.get_prices C4ft W3candle Cache.empty "AAPL" "2024-01-01"
      "2024-01-05").cache = Cache.empty ∧
    (FinnhubApiHandler.get_prices C4ft C7prices Cache.empty "AAPL" "2024-01-01"
      "2024-01-05").cache = Cache.empty := by
  constructor
  · exact (C10_no_empty_cache_writes.1 C4ft W3candle Cache.empty "AAPL" "2024-01-01"
      "2024-01-05").2.2 (by rfl)
  · exact (C10_no_empty_cache_writes.1 C4ft C7prices Cache.empty "AAPL" "2024-01-01"
      "2024-01-05").2.1 "Error fetching data" (by rfl)

/-! ## Registry theorems (claim C9) -/

/-- Claim C9: `ApiFactory.get_handler` constructs each provider's handler
at most once per process: when the resolved provider already has a stored
instance, the call returns exactly that instance and leaves the state
unchanged (no construction); on the first successful request the handler
is created lazily — the returned instance is the fresh one, it is stored,
the instance counter advances by one, and no other provider's entry or
the default selection is touched. -/
theorem C9_singleton_per_provider :
    ∀ (env : Env) (a : Option ApiProvider) (s : FactoryState) (p : ApiProvider)
      (s1 : FactoryState),
      ApiFactory.resolve_provider env a s = (p, s1) →
      ((∀ h0, s1.handlers p = some h0 →
          ApiFactory.get_handler env a s = Except.ok (h0, s1)) ∧
       (s1.handlers p = none →
          ∀ h s2, ApiFactory.get_handler env a s = Except.ok (h, s2) →
            h = s1.nextId ∧ s2.handlers p = some h ∧ s2.nextId = s1.nextId + 1 ∧
            s2.default_provider = s1.default_provider ∧
            ∀ q, q ≠ p → s2.handlers q = s1.handlers q)) := by
  intro env a s p s1 hres
  constructor
  · intro h0 hh
    unfold ApiFactory.get_handler
    rw [hres]
    simp [hh]
  · intro hh h s2 hget
    unfold ApiFactory.get_handler at hget
    rw [hres] at hget
    simp only [hh] at hget
    unfold ApiFactory.create_handler at hget
    cases p with
    | FINANCIAL_DATASETS =>
      by_cases hok : FinancialDatasetsApiHandler.ctor_ok env = true
      · rw [if_pos hok] at hget
        simp at hget
        obtain ⟨hA, hB⟩ := hget
        subst hA
        subst hB
        refine ⟨rfl, by simp, rfl, rfl, ?_⟩
        intro q hq
        simp [hq]
      · rw [if_neg hok] at hget
        simp at hget
    | FINNHUB =>
      by_cases hok : FinnhubApiHandler.ctor_ok env = true
      · rw [if_pos hok] at hget
        simp at hget
        obtain ⟨hA, hB⟩ := hget
        subst hA
        subst hB
        refine ⟨rfl, by simp, rfl, rfl, ?_⟩
        intro q hq
        simp [hq]
      · rw [if_neg hok] at hget
        simp at hget

def W9env : Env :=
  { FINNHUB_API_KEY := some "k", FINANCIAL_DATASETS_API_KEY := none,
    API_PROVIDER := some "finnhub" }

/-- The factory state after the first FINNHUB request under `W9env`. -/
def W9s2 : FactoryState :=
  { handlers := fun q => if q = ApiProvider.FINNHUB then some FactoryState.initial.nextId
      else FactoryState.initial.handlers q
    default_provider := FactoryState.initial.default_provider
    nextId := FactoryState.initial.nextId + 1 }

theorem C9_singleton_per_provider_witness :
    ApiFactory.get_handler W9env (some ApiProvider.FINNHUB) W9s2 =
      Except.ok (0, W9s2) := by
  exact (C9_singleton_per_provider W9env (some ApiProvider.FINNHUB) W9s2
    ApiProvider.FINNHUB W9s2 rfl).1 0 (by rfl)

/-! ## Date round-trip lemmas (claim C8) -/

theorem char_eq_of_toNat_eq {a b : Char} (h : a.toNat = b.toNat) : a = b :=
  Char.ext (UInt32.ext h)

theorem string_data_inj {a b : String} (h : a.data = b.data) : a = b := by
  cases a
  cases b
  exact congrArg String.mk h

theorem digitChar_toNat {n : Nat} (h : n ≤ 9) : (digitChar n).toNat = 48 + n := by
  interval_cases n <;> rfl

theorem digitChar_of_toNat {c : Char} (h1 : 48 ≤ c.toNat) (h2 : c.toNat ≤ 57) :
    digitChar (c.toNat - 48) = c := by
  apply char_eq_of_toNat_eq
  rw [digitChar_toNat (by omega)]
  omega

theorem isDig_bounds {c : Char} (h : isDig c = true) : 48 ≤ c.toNat ∧ c.toNat ≤ 57 := by
  simpa [isDig] using h

theorem pad2_digits {a b : Char} (ha : isDig a = true) (hb : isDig b = true) :
    pad2 ((a.toNat - 48) * 10 + (b.toNat - 48)) = [a, b] := by
  obtain ⟨ha1, ha2⟩ := isDig_bounds ha
  obtain ⟨hb1, hb2⟩ := isDig_bounds hb
  unfold pad2
  have e1 : ((a.toNat - 48) * 10 + (b.toNat - 48)) / 10 % 10 = a.toNat - 48 := by omega
  have e2 : ((a.toNat - 48) * 10 + (b.toNat - 48)) % 10 = b.toNat - 48 := by omega
  rw [e1, e2, digitChar_of_toNat ha1 ha2, digitChar_of_toNat hb1 hb2]

theorem pad4_digits {a b c d : Char} (ha : isDig a = true) (hb : isDig b = true)
    (hc : isDig c = true) (hd : isDig d = true) :
    pad4 ((a.toNat - 48) * 1000 + (b.toNat - 48) * 100 + (c.toNat - 48) * 10 +
      (d.toNat - 48)) = [a, b, c, d] := by
  obtain ⟨ha1, ha2⟩ := isDig_bounds ha
  obtain ⟨hb1, hb2⟩ := isDig_bounds hb
  obtain ⟨hc1, hc2⟩ := isDig_bounds hc
  obtain ⟨hd1, hd2⟩ := isDig_bounds hd
  unfold pad4
  have e1 : ((a.toNat - 48) * 1000 + (b.toNat - 48) * 100 + (c.toNat - 48) * 10 +
      (d.toNat - 48)) / 1000 % 10 = a.toNat - 48 := by omega
  have e2 : ((a.toNat - 48) * 1000 + (b.toNat - 48) * 100 + (c.toNat - 48) * 10 +
      (d.toNat - 48)) / 100 % 10 = b.toNat - 48 := by omega
  have e3 : ((a.toNat - 48) * 1000 + (b.toNat - 48) * 100 + (c.toNat - 48) * 10 +
      (d.toNat - 48)) / 10 % 10 = c.toNat - 48 := by omega
  have e4 : ((a.toNat - 48) * 1000 + (b.toNat - 48) * 100 + (c.toNat - 48) * 10 +
      (d.toNat - 48)) % 10 = d.toNat - 48 := by omega
  rw [e1, e2, e3, e4, digitChar_of_toNat ha1 ha2, digitChar_of_toNat hb1 hb2,
    digitChar_of_toNat hc1 hc2, digitChar_of_toNat hd1 hd2]

theorem month2_eq_some {a b : Char} {n : Nat} (h : month2 a b = some n) :
    isDig a = true ∧ isDig b = true ∧ n = (a.toNat - 48) * 10 + (b.toNat - 48) := by
  unfold month2 at h
  split_ifs at h with hd hr
  · injection h with h3
    exact ⟨hd.1, hd.2, h3.symm⟩

theorem day2_eq_some {a b : Char} {n : Nat} (h : day2 a b = some n) :
    isDig a = true ∧ isDig b = true ∧ n = (a.toNat - 48) * 10 + (b.toNat - 48) := by
  unfold day2 at h
  split_ifs at h with hd hr
  · injection h with h3
    exact ⟨hd.1, hd.2, h3.symm⟩

theorem d4_eq_some {a b c d : Char} {n : Nat} (h : d4 a b c d = some n) :
    isDig a = true ∧ isDig b = true ∧ isDig c = true ∧ isDig d = true ∧
      n = (a.toNat - 48) * 1000 + (b.toNat - 48) * 100 + (c.toNat - 48) * 10 +
        (d.toNat - 48) := by
  unfold d4 at h
  split_ifs at h with hd
  · injection h with h3
    exact ⟨hd.1, hd.2.1, hd.2.2.1, hd.2.2.2, h3.symm⟩

theorem parseYMD_print {cs : List Char} {ymd : Nat × Nat × Nat} (h : parseYMD cs = some ymd)
    (hlen : cs.length = 10) : (printDate ymd).data = cs := by
  rcases cs with _ | ⟨a, _ | ⟨b, _ | ⟨c, _ | ⟨d, _ | ⟨s1, _ | ⟨e, _ | ⟨f, _ | ⟨s2, _ | ⟨g, _ | ⟨i, _ | ⟨x, rest⟩⟩⟩⟩⟩⟩⟩⟩⟩⟩⟩ <;> try exact Option.noConfusion (show (none : Option (Nat × Nat × Nat)) = some ymd from h)
  · simp at hlen
  · simp at hlen
  · simp only [parseYMD] at h
    split_ifs at h with hdash
    cases hy : d4 a b c d with
    | none => rw [hy] at h; exact Option.noConfusion (show (none : Option (Nat × Nat × Nat)) = some ymd from h)
    | some y =>
      cases hm : month2 e f with
      | none => rw [hy, hm] at h; exact Option.noConfusion (show (none : Option (Nat × Nat × Nat)) = some ymd from h)
      | some m =>
        cases hdd : day2 g i with
        | none => rw [hy, hm, hdd] at h; exact Option.noConfusion (show (none : Option (Nat × Nat × Nat)) = some ymd from h)
        | some dd =>
          rw [hy, hm, hdd] at h
          simp at h
          obtain ⟨hval, hymd⟩ := h
          subst hymd
          obtain ⟨hs1, hs2⟩ := hdash
          subst hs1
          subst hs2
          obtain ⟨hya, hyb, hyc, hyd, hyv⟩ := d4_eq_some hy
          obtain ⟨hma, hmb, hmv⟩ := month2_eq_some hm
          obtain ⟨hda, hdb, hdv⟩ := day2_eq_some hdd
          subst hyv
          subst hmv
          subst hdv
          simp [printDate, pad4_digits hya hyb hyc hyd, pad2_digits hma hmb,
            pad2_digits hda hdb]

theorem parseMDY_not_dash {cs : List Char} {ymd : Nat × Nat × Nat} (h : parseMDY cs = some ymd) :
    ¬ (cs.length = 10 ∧ cs.getD 4 ' ' = '-' ∧ cs.getD 7 ' ' = '-') := by
  rcases cs with _ | ⟨m1, _ | ⟨m0, _ | ⟨s1, _ | ⟨d1, _ | ⟨d0, _ | ⟨s2, _ | ⟨y3, _ | ⟨y2, _ | ⟨y1, _ | ⟨y0, _ | ⟨x, rest⟩⟩⟩⟩⟩⟩⟩⟩⟩⟩⟩ <;> try exact Option.noConfusion (show (none : Option (Nat × Nat × Nat)) = some ymd from h)
  · rintro ⟨hlen, -, -⟩
    simp at hlen
  · rintro ⟨hlen, -, -⟩
    simp at hlen
  · rintro ⟨-, h4, -⟩
    have hd0 : d0 = '-' := h4
    subst hd0
    simp only [parseMDY] at h
    split_ifs at h with hsl
    cases hy : d4 y3 y2 y1 y0 with
    | none => rw [hy] at h; exact Option.noConfusion (show (none : Option (Nat × Nat × Nat)) = some ymd from h)
    | some y =>
      cases hm : month2 m1 m0 with
      | none => rw [hy, hm] at h; exact Option.noConfusion (show (none : Option (Nat × Nat × Nat)) = some ymd from h)
      | some m =>
        cases hdd : day2 d1 '-' with
        | none => rw [hy, hm, hdd] at h; exact Option.noConfusion (show (none : Option (Nat × Nat × Nat)) = some ymd from h)
        | some dd =>
          obtain ⟨-, hdig, -⟩ := day2_eq_some hdd
          exact absurd hdig (by decide)

theorem parseDMY_not_dash {cs : List Char} {ymd : Nat × Nat × Nat} (h : parseDMY cs = some ymd) :
    ¬ (cs.length = 10 ∧ cs.getD 4 ' ' = '-' ∧ cs.getD 7 ' ' = '-') := by
  rcases cs with _ | ⟨d1, _ | ⟨d0, _ | ⟨s1, _ | ⟨m1, _ | ⟨m0, _ | ⟨s2, _ | ⟨y3, _ | ⟨y2, _ | ⟨y1, _ | ⟨y0, _ | ⟨x, rest⟩⟩⟩⟩⟩⟩⟩⟩⟩⟩⟩ <;> try exact Option.noConfusion (show (none : Option (Nat × Nat × Nat)) = some ymd from h)
  · rintro ⟨hlen, -, -⟩
    simp at hlen
  · rintro ⟨hlen, -, -⟩
    simp at hlen
  · rintro ⟨-, h4, -⟩
    have hm0 : m0 = '-' := h4
    subst hm0
    simp only [parseDMY] at h
    split_ifs at h with hsl
    cases hy : d4 y3 y2 y1 y0 with
    | none => rw [hy] at h; exact Option.noConfusion (show (none : Option (Nat × Nat × Nat)) = some ymd from h)
    | some y =>
      cases hm : month2 m1 '-' with
      | none => rw [hy, hm] at h; exact Option.noConfusion (show (none : Option (Nat × Nat × Nat)) = some ymd from h)
      | some m =>
        obtain ⟨-, hdig, -⟩ := month2_eq_some hm
        exact absurd hdig (by decide)

/-- Claim C8: for every string input, `BaseApiHandler.format_date` returns
the date re-printed as `YYYY-MM-DD` when the input matches one of the
accepted formats — tried in the source's order `YYYY-MM-DD`, `MM/DD/YYYY`,
`DD-MM-YYYY` — and returns the input unchanged when none matches. The
function is total (it is a plain Lean function), so it raises for no
string input. -/
theorem C8_format_date_normalizes :
    ∀ s : String,
      (parseYMD s.data = none → parseMDY s.data = none → parseDMY s.data = none →
        BaseApiHandler.format_date s = s) ∧
      (∀ ymd, parseYMD s.data = some ymd →
        BaseApiHandler.format_date s = printDate ymd) ∧
      (∀ ymd, parseYMD s.data = none → parseMDY s.data = some ymd →
        BaseApiHandler.format_date s = printDate ymd) ∧
      (∀ ymd, parseYMD s.data = none → parseMDY s.data = none →
        parseDMY s.data = some ymd →
        BaseApiHandler.format_date s = printDate ymd) := by
  intro s
  by_cases hE : (s.data.length = 10 ∧ s.data.getD 4 ' ' = '-' ∧ s.data.getD 7 ' ' = '-')
  · have hf : BaseApiHandler.format_date s = s := by
      unfold BaseApiHandler.format_date
      rw [if_pos hE]
    refine ⟨fun _ _ _ => hf, ?_, ?_, ?_⟩
    · intro ymd hy
      rw [hf]
      exact (string_data_inj (parseYMD_print hy hE.1)).symm
    · intro ymd hY hM
      exact absurd hE (parseMDY_not_dash hM)
    · intro ymd hY hM hD
      exact absurd hE (parseDMY_not_dash hD)
  · have hf : BaseApiHandler.format_date s =
        (match parseYMD s.data with
         | some ymd => printDate ymd
         | none =>
           match parseMDY s.data with
           | some ymd => printDate ymd
           | none =>
             match parseDMY s.data with
             | some ymd => printDate ymd
             | none => s) := by
      unfold BaseApiHandler.format_date
      rw [if_neg hE]
    refine ⟨?_, ?_, ?_, ?_⟩
    · intro h1 h2 h3
      rw [hf, h1, h2, h3]
    · intro ymd hy
      rw [hf, hy]
    · intro ymd h1 h2
      rw [hf, h1, h2]
    · intro ymd h1 h2 h3
      rw [hf, h1, h2, h3]

theorem C8_format_date_normalizes_witness :
    BaseApiHandler.format_date "01/02/2024" = printDate (2024, 1, 2) ∧
    BaseApiHandler.format_date "1/2/2024" = printDate (2024, 1, 2) ∧
    printDate (2024, 1, 2) = "2024-01-02" ∧
    BaseApiHandler.format_date "not a date" = "not a date" := by
  refine ⟨?_, ?_, by decide, ?_⟩
  · exact (C8_format_date_normalizes "01/02/2024").2.2.1 (2024, 1, 2) (by decide) (by decide)
  · exact (C8_format_date_normalizes "1/2/2024").2.2.1 (2024, 1, 2) (by decide) (by decide)
  · exact (C8_format_date_normalizes "not a date").1 (by decide) (by decide) (by decide)

theorem C5_range_filter_membership_witness :
    W3price ∈ pricesCacheView [W3price] "2024-01-01" "2024-01-05" ∧
    W3trade ∈ tradesCacheView [W3trade] (some "2024-01-01") "2024-01-05" := by
  constructor
  · exact (C5_range_filter_membership.1 [W3price] "2024-01-01" "2024-01-05" W3price).mpr
      (by decide)
  · refine (C5_range_filter_membership.2.1 [W3trade] (some "2024-01-01") "2024-01-05"
      W3trade).mpr ⟨by decide, ?_, by decide⟩
    intro s hs
    injection hs with hs
    subst hs
    decide
